import Mathlib

/-!
Verification of the DGC Platform backend (Python, FastAPI) against its
natural-language specification.

The Python sources are shallowly embedded:
* mutable service objects become explicit state records threaded through
  the operations;
* Python `bytes` becomes `List Nat` (each entry < 256 in the states that
  arise), `str` becomes `String`, `int` becomes `Int`, and Python floats
  are modelled exactly by rationals (`Rat`) -- every float literal in the
  sources is a short decimal that the code only adds, multiplies, clamps
  and compares, so the rational model is faithful for all the range and
  equality properties considered here;
* `hashlib.sha256(...).hexdigest()` and the seeded PRNG streams
  (`random.Random(seed)`, `random.seed(s); random.random()`) are
  deterministic pure functions of their inputs, so they are abstracted as
  function parameters; theorems quantify over them;
* fallible code returns `Except PyErr` where `PyErr` distinguishes the
  Python exception classes the handlers dispatch on.
-/

namespace DGC

/-- Python exception classes that the request handlers distinguish. -/
inductive PyErr where
  | valueError (msg : String)
  | typeError (msg : String)
  | keyError (msg : String)
  deriving DecidableEq, Repr

/-- The string message of a Python exception (`str(e)`). -/
def PyErr.msg : PyErr → String
  | .valueError m => m
  | .typeError m => m
  | .keyError m => m

/-! ### Python dictionaries as association lists

Python `dict` preserves insertion order; assignment to an existing key
replaces the value in place, a new key is appended.  Lookup finds the
unique binding (keys are unique in every dict built this way). -/

/-- `d[k] = v` on a Python dict. -/
def pyDictInsert [DecidableEq K] : List (K × V) → K → V → List (K × V)
  | [], k, v => [(k, v)]
  | (k0, v0) :: rest, k, v =>
    if k0 = k then (k, v) :: rest else (k0, v0) :: pyDictInsert rest k v

/-- `d.get(k)` on a Python dict. -/
def pyDictGet [DecidableEq K] : List (K × V) → K → Option V
  | [], _ => none
  | (k0, v0) :: rest, k => if k0 = k then some v0 else pyDictGet rest k

theorem pyDictGet_insert_self [DecidableEq K] (l : List (K × V)) (k : K) (v : V) :
    pyDictGet (pyDictInsert l k v) k = some v := by
  induction l with
  | nil => simp [pyDictInsert, pyDictGet]
  | cons hd tl ih =>
    by_cases h : hd.1 = k <;> simp [pyDictInsert, pyDictGet, h, ih]

theorem pyDictGet_insert_ne [DecidableEq K] (l : List (K × V)) (k k2 : K) (v : V)
    (h : k2 ≠ k) : pyDictGet (pyDictInsert l k v) k2 = pyDictGet l k2 := by
  have hk : ¬ (k = k2) := fun he => h he.symm
  induction l with
  | nil => simp [pyDictInsert, pyDictGet, hk]
  | cons hd tl ih =>
    rcases hd with ⟨k0, v0⟩
    by_cases h0 : k0 = k
    · subst h0
      simp [pyDictInsert, pyDictGet, hk]
    · simp only [pyDictInsert, h0, if_false, pyDictGet]
      split <;> simp [ih]

/-- Membership in a dict after insertion comes from the new binding or an
old one. -/
theorem mem_pyDictInsert [DecidableEq K] {l : List (K × V)} {k : K} {v : V}
    {p : K × V} (h : p ∈ pyDictInsert l k v) : p = (k, v) ∨ p ∈ l := by
  induction l with
  | nil => simpa [pyDictInsert] using h
  | cons hd tl ih =>
    by_cases h0 : hd.1 = k
    · rw [show pyDictInsert (hd :: tl) k v = (k, v) :: tl by simp [pyDictInsert, h0]] at h
      rcases List.mem_cons.mp h with h2 | h2
      · exact .inl h2
      · exact .inr (List.mem_cons_of_mem _ h2)
    · rw [show pyDictInsert (hd :: tl) k v = hd :: pyDictInsert tl k v by
        simp [pyDictInsert, h0]] at h
      rcases List.mem_cons.mp h with h2 | h2
      · exact .inr (h2 ▸ List.mem_cons_self _ _)
      · rcases ih h2 with h3 | h3
        · exact .inl h3
        · exact .inr (List.mem_cons_of_mem _ h3)

/-! ### Python string helpers -/

/-- Python `len(s)` (counts code points). -/
def pyLen (s : String) : Nat := s.data.length

/-- Python truthiness test `not s.strip()`: the string is empty or all
whitespace.  (Python strips the larger Unicode whitespace class; the
sources only ever meet ASCII whitespace, where the two agree.) -/
def pyBlank (s : String) : Bool := s.data.all Char.isWhitespace

/-- Python `s.startswith(pre)`. -/
def pyStartsWith (s pre : String) : Bool := pre.data.isPrefixOf s.data

/-- Python `s.lower()` (code-point-wise; agrees with Python on ASCII,
which is all the sources compare). -/
def pyLower (s : String) : String := ⟨s.data.map Char.toLower⟩

/-- Auxiliary for substring search on char lists. -/
def listContainsSub [DecidableEq α] (needle : List α) : List α → Bool
  | [] => needle.isEmpty
  | a :: rest => needle.isPrefixOf (a :: rest) || listContainsSub needle rest

/-- Python `needle in hay` on strings (substring containment). -/
def pyInStr (needle hay : String) : Bool := listContainsSub needle.data hay.data

/-- UTF-8 encoding of one code point. -/
def utf8EncodeChar (c : Char) : List Nat :=
  let n := c.toNat
  if n < 0x80 then [n]
  else if n < 0x800 then [0xC0 + n / 64, 0x80 + n % 64]
  else if n < 0x10000 then [0xE0 + n / 4096, 0x80 + n / 64 % 64, 0x80 + n % 64]
  else [0xF0 + n / 262144, 0x80 + n / 4096 % 64, 0x80 + n / 64 % 64, 0x80 + n % 64]

/-- Python `s.encode("utf-8")` as a byte list. -/
def pyEncodeUtf8 (s : String) : List Nat := (s.data.map utf8EncodeChar).flatten

/-- Python slice `l[a:b]` for `0 ≤ a ≤ b` (the only shape the sources use). -/
def pySlice (l : List α) (a b : Nat) : List α := (l.drop a).take (b - a)

/-- Clamp to `[0, 1]`: Python `max(0.0, min(1.0, x))`. -/
def clamp01 (x : ℚ) : ℚ := max 0 (min 1 x)

theorem clamp01_nonneg (x : ℚ) : 0 ≤ clamp01 x := le_max_left _ _

theorem clamp01_le_one (x : ℚ) : clamp01 x ≤ 1 := by
  simp only [clamp01, max_le_iff]
  exact ⟨zero_le_one, min_le_left _ _⟩

/-! ### Python `bytes`-or-`str` unions -/

/-- A `Union[bytes, str]` value. -/
inductive PyData where
  | bytes (b : List Nat)
  | str (s : String)
  deriving DecidableEq, Repr

/-- The byte view used by `upload_content`: a string is UTF-8 encoded. -/
def PyData.toBytes : PyData → List Nat
  | .bytes b => b
  | .str s => pyEncodeUtf8 s

/-! ## IPFS service (`app/services/ipfs.py`)

`IPFSService` keeps an in-memory store: `_storage` maps CIDs to bytes,
`_pins` is a set of CIDs, `_metadata` maps CIDs to upload metadata.
`hashlib.sha256(content).hexdigest()` is abstracted as a parameter
`sha : List Nat → String`; `datetime.now().timestamp()` as `now`. -/

/-- Per-CID metadata stored by `upload_content`. -/
structure IPFSMeta where
  size : Nat
  uploaded_at : Int
  pinned : Bool
  deriving DecidableEq, Repr

/-- The mutable state of `IPFSService`. -/
structure IPFSService where
  storage : List (String × List Nat)
  pins : List String
  meta : List (String × IPFSMeta)
  deriving DecidableEq, Repr

/-- Result record of `upload_content`. -/
structure IPFSUploadResult where
  cid : String
  size : Nat
  pinned : Bool
  timestamp : Int
  deriving DecidableEq, Repr

/-- Content record returned by `get_content`.  The `content_type`
sniffing block of the source (ipfs.py lines 168-188) only derives a MIME
label and never alters the returned bytes; it is not modelled since no
claim mentions it. -/
structure IPFSContent where
  cid : String
  content : List Nat
  size : Nat
  deriving DecidableEq, Repr

/-- `IPFSService._compute_cid`: `"Qm" + sha256(content).hexdigest()[:44]`. -/
def compute_cid (sha : List Nat → String) (content : List Nat) : String :=
  "Qm" ++ (sha content).take 44

/-- Effectful map over a list in the `Except` monad (Python list
comprehension that can raise). -/
def mapME (f : A → Except E B) : List A → Except E (List B)
  | [] => .ok []
  | a :: t => do
    let b ← f a
    let bs ← mapME f t
    .ok (b :: bs)

theorem except_bind_ok (a : A) (f : A → Except E B) :
    (Except.ok a >>= f : Except E B) = f a := rfl

theorem except_bind_error (e : E) (f : A → Except E B) :
    (Except.error e >>= f : Except E B) = .error e := rfl

theorem except_map_ok (a : A) (f : A → B) :
    (Except.ok a).map f = (Except.ok (f a) : Except E B) := rfl

theorem except_pure (a : A) : (pure a : Except E A) = .ok a := rfl

/-- Python `set.add` on the pin set (kept as a duplicate-free list). -/
def pySetAdd [DecidableEq α] (s : List α) (a : α) : List α :=
  if a ∈ s then s else s ++ [a]

/-- `IPFSService.upload_content` (ipfs.py lines 71-123). -/
def upload_content (sha : List Nat → String) (now : Int) (st : IPFSService)
    (content : PyData) (pin : Bool) : IPFSUploadResult × IPFSService :=
  let content_bytes := content.toBytes
  let cid := compute_cid sha content_bytes
  let storage2 := pyDictInsert st.storage cid content_bytes
  let pins2 := if pin then pySetAdd st.pins cid else st.pins
  let meta2 := pyDictInsert st.meta cid
    { size := content_bytes.length, uploaded_at := now, pinned := pin }
  ({ cid := cid, size := content_bytes.length, pinned := pin, timestamp := now },
   { storage := storage2, pins := pins2, meta := meta2 })

/-- `IPFSService.get_content` (ipfs.py lines 145-197). -/
def get_content (st : IPFSService) (cid : String) : Except PyErr IPFSContent :=
  match pyDictGet st.storage cid with
  | none => .error (.valueError ("Content not found for CID: " ++ cid))
  | some content_bytes =>
    .ok { cid := cid, content := content_bytes, size := content_bytes.length }

end DGC

namespace DGC

/-- C1.  Uploading a byte string and retrieving the returned CID yields
exactly the uploaded bytes, in every prior state and for every hash
function; for a string input the retrieved content is its UTF-8
encoding. -/
theorem ipfs_upload_get_roundtrip (sha : List Nat → String) (now : Int)
    (st : IPFSService) (b : List Nat) (s : String) (pin pin2 : Bool) :
    get_content (upload_content sha now st (.bytes b) pin).2
        (upload_content sha now st (.bytes b) pin).1.cid =
      .ok { cid := (upload_content sha now st (.bytes b) pin).1.cid,
            content := b, size := b.length } ∧
    get_content (upload_content sha now st (.str s) pin2).2
        (upload_content sha now st (.str s) pin2).1.cid =
      .ok { cid := (upload_content sha now st (.str s) pin2).1.cid,
            content := pyEncodeUtf8 s, size := (pyEncodeUtf8 s).length } := by
  constructor <;>
    simp [upload_content, get_content, PyData.toBytes, pyDictGet_insert_self]

/-! ## JSON values

`Dict[str, Any]` parameters carry JSON-shaped data (they arrive through
pydantic request bodies).  Python `json` distinguishes ints and floats;
floats are modelled as rationals. -/

/-- A JSON value. -/
inductive Json where
  | null
  | bool (b : Bool)
  | int (n : Int)
  | float (q : ℚ)
  | str (s : String)
  | arr (elements : List Json)
  | obj (fields : List (String × Json))

/-- Python `str(x)` on the JSON scalars the sources can feed to it; the
composite cases use a simplified rendering (they never arise in any
theorem below, where `str` is only ever applied to strings). -/
def pyStr : Json → String
  | .null => "None"
  | .bool true => "True"
  | .bool false => "False"
  | .int n => toString n
  | .float q => toString q
  | .str s => s
  | .arr _ => "[...]"
  | .obj _ => "\x7b...\x7d"

/-! ## Generation service (`app/services/generation.py`)

`random.Random(seed)` is a deterministic PRNG: its draw sequence is a
pure function of the seed.  It is modelled by streams indexed by
`(seed, draw index)`:
* `randByte seed k` is the `k`-th `rng.randint(0, 255)`;
* `randChoice seed k` is the index drawn by the `k`-th
  `rng.choice(words)` (reduced mod the list length to reflect that
  `choice` always returns a list element). -/

/-- `GenerationService._generate_image` (generation.py lines 240-277).
The `width`/`height`/`steps`/`guidance_scale` parameters are read but
feed only the log line, never the returned bytes. -/
def generate_image (randByte : Int → Nat → Nat) (prompt : String) (seed : Int)
    (_parameters : List (String × Json)) : List Nat :=
  let header := pyEncodeUtf8 ("DGC_IMAGE:" ++ toString seed ++ ":" ++ prompt.take 20 ++ ":")
  header ++ (List.range 100).map (randByte seed)

/-- `GenerationService._generate_music` (generation.py lines 313-343);
`duration`/`sample_rate` feed only the log line. -/
def generate_music (randByte : Int → Nat → Nat) (prompt : String) (seed : Int)
    (_parameters : List (String × Json)) : List Nat :=
  let header := pyEncodeUtf8 ("DGC_MUSIC:" ++ toString seed ++ ":" ++ prompt.take 20 ++ ":")
  header ++ (List.range 100).map (randByte seed)

/-- The fixed word list of `_generate_text`. -/
def genWords : List String :=
  ["creative", "innovative", "artistic", "digital", "unique",
   "generated", "AI", "content", "beautiful", "fascinating"]

/-- `GenerationService._generate_text` (generation.py lines 279-311).
`parameters.get("max_tokens", 1000)` must be an int for `//` to work;
a non-int raises a `TypeError`. -/
def generate_text (randChoice : Int → Nat → Nat) (prompt : String) (seed : Int)
    (parameters : List (String × Json)) : Except PyErr String := do
  let max_tokens : Int ←
    match pyDictGet parameters "max_tokens" with
    | none => .ok 1000
    | some (.int n) => .ok n
    | some _ => .error (.typeError "unsupported operand type for floor division")
  let count := (min (Int.fdiv max_tokens 5) 50).toNat
  let generated_words := (List.range count).map
    (fun k => genWords.getD (randChoice seed k % genWords.length) "")
  let q := String.singleton (Char.ofNat 39)
  .ok ("Generated from prompt: " ++ q ++ prompt ++ q ++ "\n\n" ++
    String.intercalate " " generated_words)

/-- C3.  Generation is deterministic in the seed: with the PRNG streams
fixed by the seed (which is what `random.Random(seed)` guarantees), two
invocations of `_generate_image`, `_generate_text` or `_generate_music`
with equal prompt, seed and parameters return identical content. -/
theorem generation_deterministic_in_seed (randByte randChoice : Int → Nat → Nat)
    (p1 p2 : String) (s1 s2 : Int) (par1 par2 : List (String × Json))
    (hp : p1 = p2) (hs : s1 = s2) (hpar : par1 = par2) :
    generate_image randByte p1 s1 par1 = generate_image randByte p2 s2 par2 ∧
    generate_text randChoice p1 s1 par1 = generate_text randChoice p2 s2 par2 ∧
    generate_music randByte p1 s1 par1 = generate_music randByte p2 s2 par2 := by
  subst hp; subst hs; subst hpar
  exact ⟨rfl, rfl, rfl⟩

/-- Witness for C3 at concrete inputs. -/
theorem generation_deterministic_in_seed_witness :
    generate_image (fun _ k => k) "cat" 7 [] = generate_image (fun _ k => k) "cat" 7 [] ∧
    generate_text (fun _ k => k) "cat" 7 [] = generate_text (fun _ k => k) "cat" 7 [] ∧
    generate_music (fun _ k => k) "cat" 7 [] = generate_music (fun _ k => k) "cat" 7 [] :=
  generation_deterministic_in_seed (fun _ k => k) (fun _ k => k)
    "cat" "cat" 7 7 [] [] rfl rfl rfl

/-! ## NFT index and `list_nfts` (`app/api.py` lines 355-385)

The in-memory NFT index is a dict keyed by token id; `list_nfts` starts
from `list(_nft_index.values())`, so the handler is modelled directly on
that value list.  `ContentTypeEnum` (api.py) has the same three values
as `ContentType` (models.py / generation.py). -/

/-- `ContentType` / `ContentTypeEnum`: IMAGE, TEXT, MUSIC. -/
inductive ContentType where
  | IMAGE
  | TEXT
  | MUSIC
  deriving DecidableEq, Repr

/-- The string value of a content-type enum member. -/
def contentTypeValue : ContentType → String
  | .IMAGE => "IMAGE"
  | .TEXT => "TEXT"
  | .MUSIC => "MUSIC"

/-- `NFTMetadata` (api.py lines 143-157). -/
structure NFTMetadata where
  token_id : Int
  name : String
  description : String
  image : String
  content_type : String
  creator_address : String
  model_version : String
  timestamp : Int
  provenance_hash : Option String
  deriving DecidableEq, Repr

/-- `NFTListResponse` (api.py lines 159-165). -/
structure NFTListResponse where
  nfts : List NFTMetadata
  total : Nat
  page : Nat
  page_size : Nat
  deriving DecidableEq, Repr

/-- The filtering stage of `list_nfts` (api.py lines 369-377): a
`content_type` filter compares the string value exactly; a `creator`
filter compares lowercased addresses; Python truthiness makes an empty
`creator` string mean no filter. -/
def nftFiltered (index : List NFTMetadata) (content_type : Option ContentType)
    (creator : Option String) : List NFTMetadata :=
  let filtered := index
  let filtered :=
    match content_type with
    | none => filtered
    | some ct => filtered.filter (fun n => n.content_type == contentTypeValue ct)
  match creator with
  | none => filtered
  | some c =>
    if c = "" then filtered
    else filtered.filter (fun n => pyLower n.creator_address == pyLower c)

/-- `list_nfts` (api.py lines 355-385).  `page ≥ 1` and
`1 ≤ page_size ≤ 100` are enforced by the framework query validators;
`min_price`/`max_price` are accepted but never used by the handler. -/
def list_nfts (index : List NFTMetadata) (page page_size : Nat)
    (content_type : Option ContentType) (creator : Option String) : NFTListResponse :=
  let filtered := nftFiltered index content_type creator
  let total := filtered.length
  let start := (page - 1) * page_size
  let paginated := pySlice filtered start (start + page_size)
  { nfts := paginated, total := total, page := page, page_size := page_size }

/-- Does one NFT match all the given filters? -/
def nftMatches (content_type : Option ContentType) (creator : Option String)
    (n : NFTMetadata) : Bool :=
  (match content_type with
   | none => true
   | some ct => n.content_type == contentTypeValue ct) &&
  (match creator with
   | none => true
   | some c => c = "" || pyLower n.creator_address == pyLower c)

theorem nftFiltered_eq_filter (index : List NFTMetadata)
    (ct : Option ContentType) (cr : Option String) :
    nftFiltered index ct cr = index.filter (nftMatches ct cr) := by
  have congrF : ∀ (p q : NFTMetadata → Bool), (∀ n, p n = q n) →
      List.filter p index = List.filter q index :=
    fun p q h => List.filter_congr (fun n _ => h n)
  cases ct <;> cases cr
  · rw [congrF (nftMatches none none) (fun _ => true) (fun n => by simp [nftMatches]),
      List.filter_true]
    rfl
  · rename_i c
    by_cases hc : c = ""
    · subst hc
      rw [congrF (nftMatches none (some "")) (fun _ => true) (fun n => by simp [nftMatches]),
        List.filter_true]
      simp [nftFiltered]
    · rw [congrF (nftMatches none (some c))
        (fun n => pyLower n.creator_address == pyLower c) (fun n => by simp [nftMatches, hc])]
      simp [nftFiltered, hc]
  · rename_i ct
    rw [congrF (nftMatches (some ct) none)
      (fun n => n.content_type == contentTypeValue ct) (fun n => by simp [nftMatches])]
    rfl
  · rename_i ct c
    by_cases hc : c = ""
    · subst hc
      rw [congrF (nftMatches (some ct) (some ""))
        (fun n => n.content_type == contentTypeValue ct) (fun n => by simp [nftMatches])]
      simp [nftFiltered]
    · rw [congrF (nftMatches (some ct) (some c))
        (fun n => n.content_type == contentTypeValue ct &&
          (pyLower n.creator_address == pyLower c)) (fun n => by simp [nftMatches, hc])]
      simp [nftFiltered, hc, List.filter_filter, Bool.and_comm]

theorem mem_of_mem_pySlice {l : List α} {a b : Nat} {x : α}
    (h : x ∈ pySlice l a b) : x ∈ l :=
  List.drop_subset a l (List.take_subset _ _ h)

/-- C6.  Filter correctness of `list_nfts`: every returned NFT matches a
given content-type filter exactly and a given (nonempty) creator filter
up to case, and the reported total counts exactly the indexed NFTs
matching all given filters. -/
theorem list_nfts_filter_correctness (index : List NFTMetadata)
    (page page_size : Nat) (ct : Option ContentType) (cr : Option String) :
    (∀ c, ct = some c → ∀ n ∈ (list_nfts index page page_size ct cr).nfts,
      n.content_type = contentTypeValue c) ∧
    (∀ s, cr = some s → s ≠ "" → ∀ n ∈ (list_nfts index page page_size ct cr).nfts,
      pyLower n.creator_address = pyLower s) ∧
    (list_nfts index page page_size ct cr).total =
      (index.filter (nftMatches ct cr)).length := by
  refine ⟨?_, ?_, ?_⟩
  · intro c hc n hn
    subst hc
    have hmem : n ∈ nftFiltered index (some c) cr := mem_of_mem_pySlice hn
    rw [nftFiltered_eq_filter] at hmem
    have := List.of_mem_filter hmem
    simp only [nftMatches, Bool.and_eq_true, beq_iff_eq] at this
    exact this.1
  · intro s hs hne n hn
    subst hs
    have hmem : n ∈ nftFiltered index ct (some s) := mem_of_mem_pySlice hn
    rw [nftFiltered_eq_filter] at hmem
    have := List.of_mem_filter hmem
    simp only [nftMatches, Bool.and_eq_true, Bool.or_eq_true, beq_iff_eq,
      decide_eq_true_eq] at this
    rcases this.2 with h | h
    · exact absurd h hne
    · exact h
  · show (nftFiltered index ct cr).length = _
    rw [nftFiltered_eq_filter]

/-- A sample NFT record for concrete checks. -/
def sampleNFT : NFTMetadata :=
  { token_id := 1, name := "NFT 1", description := "d", image := "ipfs://x",
    content_type := "IMAGE", creator_address := "0xab", model_version := "m",
    timestamp := 1, provenance_hash := none }

/-- Witness for C6 at a concrete index, content-type filter and
case-varied creator filter. -/
theorem list_nfts_filter_correctness_witness :
    sampleNFT.content_type = contentTypeValue ContentType.IMAGE ∧
    pyLower sampleNFT.creator_address = pyLower "0xAB" := by
  have h := list_nfts_filter_correctness [sampleNFT] 1 20 (some .IMAGE) (some "0xAB")
  have hmem : sampleNFT ∈ (list_nfts [sampleNFT] 1 20 (some .IMAGE) (some "0xAB")).nfts := by
    decide
  exact ⟨h.1 .IMAGE rfl sampleNFT hmem, h.2.1 "0xAB" rfl (by decide) sampleNFT hmem⟩

/-- C7.  Pagination bounds of `list_nfts`: at most `page_size` items are
returned, the items are exactly the slice
`filtered[(page-1)*page_size : (page-1)*page_size + page_size]`, and a
page past the end of the filtered list yields no items while `total`
still reports the full filtered count. -/
theorem list_nfts_pagination_bounds (index : List NFTMetadata)
    (page page_size : Nat) (ct : Option ContentType) (cr : Option String)
    (_hp : 1 ≤ page) (_hs1 : 1 ≤ page_size) (_hs2 : page_size ≤ 100) :
    (list_nfts index page page_size ct cr).nfts.length ≤ page_size ∧
    (list_nfts index page page_size ct cr).nfts =
      pySlice (nftFiltered index ct cr) ((page - 1) * page_size)
        ((page - 1) * page_size + page_size) ∧
    ((nftFiltered index ct cr).length ≤ (page - 1) * page_size →
      (list_nfts index page page_size ct cr).nfts = [] ∧
      (list_nfts index page page_size ct cr).total = (nftFiltered index ct cr).length) := by
  refine ⟨?_, rfl, ?_⟩
  · show (pySlice (nftFiltered index ct cr) _ _).length ≤ page_size
    calc (pySlice (nftFiltered index ct cr) ((page - 1) * page_size)
          ((page - 1) * page_size + page_size)).length
        ≤ (page - 1) * page_size + page_size - (page - 1) * page_size :=
          List.length_take_le _ _
      _ = page_size := by omega
  · intro hpast
    refine ⟨?_, rfl⟩
    show pySlice (nftFiltered index ct cr) _ _ = []
    unfold pySlice
    rw [List.drop_eq_nil_of_le hpast, List.take_nil]

/-- Witness for C7 at a concrete index and page. -/
theorem list_nfts_pagination_bounds_witness :
    (list_nfts [] 2 20 none none).nfts.length ≤ 20 ∧
    (list_nfts [] 2 20 none none).nfts =
      pySlice (nftFiltered [] none none) 20 40 ∧
    ((nftFiltered [] none none).length ≤ 20 →
      (list_nfts [] 2 20 none none).nfts = [] ∧
      (list_nfts [] 2 20 none none).total = (nftFiltered [] none none).length) :=
  list_nfts_pagination_bounds [] 2 20 none none (by decide) (by decide) (by decide)

/-! ## Metadata records (`app/models.py`)

The dataclasses `Attribute`, `Provenance`, `Evolution`, `Metadata` and
their JSON (de)serialisation.  `to_json` is `json.dumps(self._to_dict())`
and `from_json` is `self._from_dict(json.loads(s))`: the standard-library
string codec between `_to_dict` and `_from_dict` is not repository code,
so the round trip is modelled at the structured-JSON level, i.e. as
`_from_dict ∘ _to_dict`.

The embedding is typed: fields that Python stores unchecked but whose
non-conforming values either cannot be produced by `_to_dict` or are
rejected by `validate()` (for example a non-string `provenance.creator`)
are given their intended Lean types, and `_from_dict` rejects JSON that
falls outside them where Python would instead store the raw value and
fail later in `validate()` -- the composite accept/reject behaviour on
every input reachable in a round trip is unchanged. -/

/-- `DerivationType` enum. -/
inductive DerivationType where
  | ORIGINAL
  | REMIX
  | EVOLUTION
  deriving DecidableEq, Repr

/-- The string value of a derivation-type member. -/
def derivationTypeValue : DerivationType → String
  | .ORIGINAL => "ORIGINAL"
  | .REMIX => "REMIX"
  | .EVOLUTION => "EVOLUTION"

/-- `Attribute` dataclass (models.py lines 31-36). -/
structure Attribute where
  trait_type : String
  value : String

/-- `Provenance` dataclass (models.py lines 39-50).  `parameters` is an
arbitrary JSON value (`Dict[str, Any]`, never type-checked by
`validate`). -/
structure Provenance where
  model_version : String
  model_hash : String
  prompt_hash : String
  seed : Int
  parameters : Json
  timestamp : Int
  creator : String
  collaborators : List String

/-- `Evolution` dataclass (models.py lines 53-58). -/
structure Evolution where
  parent_tokens : List Int
  derivation_type : DerivationType

/-- `Metadata` dataclass (models.py lines 61-88). -/
structure Metadata where
  name : String
  description : String
  image : String
  content_type : ContentType
  content_hash : String
  creator_address : String
  prompt : String
  model_version : String
  timestamp : Int
  generation_parameters : List (String × Json)
  attributes : List Attribute
  provenance : Option Provenance
  evolution : Option Evolution

/-- JSON encoding of one attribute, as written by `_to_dict`. -/
def attrToJson (a : Attribute) : Json :=
  .obj [("trait_type", .str a.trait_type), ("value", .str a.value)]

/-- JSON encoding of the provenance sub-record, as written by `_to_dict`. -/
def provToJson (p : Provenance) : Json :=
  .obj [("model_version", .str p.model_version),
        ("model_hash", .str p.model_hash),
        ("prompt_hash", .str p.prompt_hash),
        ("seed", .int p.seed),
        ("parameters", p.parameters),
        ("timestamp", .int p.timestamp),
        ("creator", .str p.creator),
        ("collaborators", .arr (p.collaborators.map Json.str))]

/-- JSON encoding of the evolution sub-record, as written by `_to_dict`. -/
def evoToJson (e : Evolution) : Json :=
  .obj [("parent_tokens", .arr (e.parent_tokens.map Json.int)),
        ("derivation_type", .str (derivationTypeValue e.derivation_type))]

/-- `Metadata._to_dict` (models.py lines 129-165): the dict serialised by
`to_json`; `provenance`/`evolution` keys appear only when present. -/
def Metadata.to_dict (m : Metadata) : Json :=
  .obj
    ([("name", .str m.name),
      ("description", .str m.description),
      ("image", .str m.image),
      ("content_type", .str (contentTypeValue m.content_type)),
      ("content_hash", .str m.content_hash),
      ("creator_address", .str m.creator_address),
      ("prompt", .str m.prompt),
      ("model_version", .str m.model_version),
      ("timestamp", .int m.timestamp),
      ("generation_parameters", .obj m.generation_parameters),
      ("attributes", .arr (m.attributes.map attrToJson))] ++
     (match m.provenance with
      | none => []
      | some p => [("provenance", provToJson p)]) ++
     (match m.evolution with
      | none => []
      | some e => [("evolution", evoToJson e)]))

/-- `validate` helper: required string fields must be non-empty after
`strip()`. -/
def checkNonEmptyString (field_name : String) (value : String) : Except String Unit :=
  if pyBlank value then .error (field_name ++ " must be a non-empty string")
  else .ok ()

/-- `validate` on the attribute list (models.py lines 309-313); the
`value` isinstance-str check is vacuous in the typed embedding. -/
def validateAttributes : Nat → List Attribute → Except String Unit
  | _, [] => .ok ()
  | i, a :: rest =>
    if pyBlank a.trait_type then
      .error ("Attribute " ++ toString i ++ ": trait_type must be a non-empty string")
    else validateAttributes (i + 1) rest

/-- `validate` on the optional provenance record (models.py lines
316-334); the isinstance checks on `seed` and `collaborators` are
vacuous in the typed embedding. -/
def validateProvenanceOpt : Option Provenance → Except String Unit
  | none => .ok ()
  | some p =>
    if pyBlank p.model_hash then .error "provenance.model_hash must be a non-empty string"
    else if pyBlank p.prompt_hash then .error "provenance.prompt_hash must be a non-empty string"
    else if p.timestamp ≤ 0 then .error "provenance.timestamp must be a positive integer"
    else if pyBlank p.creator then .error "provenance.creator must be a non-empty string"
    else .ok ()

/-- `validate` on the optional evolution record (models.py lines
337-342). -/
def validateEvolutionOpt : Option Evolution → Except String Unit
  | none => .ok ()
  | some e =>
    if e.parent_tokens.all (fun t => 0 ≤ t) then .ok ()
    else .error "evolution.parent_tokens must contain non-negative integers"

/-- `Metadata.validate` (models.py lines 272-342).  The
`generation_parameters` isinstance-dict check is vacuous in the typed
embedding. -/
def Metadata.validate (m : Metadata) : Except String Unit := do
  checkNonEmptyString "name" m.name
  checkNonEmptyString "description" m.description
  checkNonEmptyString "image" m.image
  checkNonEmptyString "content_hash" m.content_hash
  checkNonEmptyString "creator_address" m.creator_address
  checkNonEmptyString "prompt" m.prompt
  checkNonEmptyString "model_version" m.model_version
  if ¬ (pyStartsWith m.creator_address "0x") ∨ pyLen m.creator_address ≠ 42 then
    .error "creator_address must be a valid Ethereum address (0x followed by 40 hex characters)"
  else do
  if m.timestamp ≤ 0 then
    .error "timestamp must be a positive integer"
  else do
  validateAttributes 0 m.attributes
  validateProvenanceOpt m.provenance
  validateEvolutionOpt m.evolution

/-- The `required_fields` list of `_from_dict` (models.py lines 171-178). -/
def requiredFields : List String :=
  ["content_hash", "creator_address", "prompt", "model_version",
   "timestamp", "generation_parameters"]

/-- `ContentType(data["content_type"])`: raises on any value that is not
one of the three member strings. -/
def parseContentType : Json → Except String ContentType
  | .str "IMAGE" => .ok .IMAGE
  | .str "TEXT" => .ok .TEXT
  | .str "MUSIC" => .ok .MUSIC
  | _ => .error "Invalid content_type: must be one of IMAGE, TEXT, MUSIC"

/-- `DerivationType(evo_data["derivation_type"])`. -/
def parseDerivationType : Json → Except String DerivationType
  | .str "ORIGINAL" => .ok .ORIGINAL
  | .str "REMIX" => .ok .REMIX
  | .str "EVOLUTION" => .ok .EVOLUTION
  | _ => .error "Invalid derivation_type"

/-- Field access `data[k]` where the source has already checked or will
error with the given missing-field message. -/
def jfield (data : List (String × Json)) (k : String) : Except String Json :=
  match pyDictGet data k with
  | some v => .ok v
  | none => .error ("Missing required field: " ++ k)

/-- A field that Python stores raw but whose non-string values
`validate()` rejects; the typed embedding rejects them at parse time
with the message `validate()` would raise. -/
def requireJsonStr (field_name : String) : Json → Except String String
  | .str s => .ok s
  | _ => .error (field_name ++ " must be a non-empty string")

/-- Parsing of one attribute entry (models.py lines 204-215). -/
def parseAttr : Json → Except String Attribute
  | .obj fields =>
    (match pyDictGet fields "trait_type", pyDictGet fields "value" with
     | some tt, some v =>
       (match tt with
        | .str s => .ok { trait_type := s, value := pyStr v }
        | _ => .error "Attribute trait_type must be a non-empty string")
     | _, _ => .error "Invalid attribute format. Must have trait_type and value fields")
  | _ => .error "Invalid attribute format. Must have trait_type and value fields"

/-- Parsing of `data.get("attributes", [])` (models.py lines 202-215);
iterating a non-list JSON value errors in Python as well. -/
def parseAttributes : Option Json → Except String (List Attribute)
  | none => .ok []
  | some (.arr xs) => mapME parseAttr xs
  | some _ => .error "Invalid attribute format. Must have trait_type and value fields"

/-- One collaborator entry; non-strings are outside the typed embedding. -/
def parseCollabItem : Json → Except String String
  | .str s => .ok s
  | _ => .error "provenance.collaborators must be a list"

/-- One parent-token entry; `validate()` rejects non-ints. -/
def parseTokenItem : Json → Except String Int
  | .int n => .ok n
  | _ => .error "evolution.parent_tokens must contain non-negative integers"

/-- Parsing of the provenance sub-dict (models.py lines 218-230):
direct indexing, `collaborators` defaulting to `[]`. -/
def parseProvenance : Json → Except String Provenance
  | .obj p => do
    let mv ← jfield p "model_version" >>= requireJsonStr "provenance.model_version"
    let mh ← jfield p "model_hash" >>= requireJsonStr "provenance.model_hash"
    let ph ← jfield p "prompt_hash" >>= requireJsonStr "provenance.prompt_hash"
    let sd ← jfield p "seed" >>= (fun j => match j with
      | .int n => .ok n
      | _ => .error "provenance.seed must be an integer")
    let params ← jfield p "parameters"
    let ts ← jfield p "timestamp" >>= (fun j => match j with
      | .int n => .ok n
      | _ => .error "provenance.timestamp must be a positive integer")
    let cr ← jfield p "creator" >>= requireJsonStr "provenance.creator"
    let collabs ← match pyDictGet p "collaborators" with
      | none => .ok []
      | some (.arr xs) => mapME parseCollabItem xs
      | some _ => .error "provenance.collaborators must be a list"
    .ok { model_version := mv, model_hash := mh, prompt_hash := ph, seed := sd,
          parameters := params, timestamp := ts, creator := cr,
          collaborators := collabs }
  | _ => .error "Failed to deserialize metadata from JSON"

/-- Parsing of the evolution sub-dict (models.py lines 233-243). -/
def parseEvolution : Json → Except String Evolution
  | .obj e => do
    let dt ← jfield e "derivation_type" >>= parseDerivationType
    let pts ← match pyDictGet e "parent_tokens" with
      | none => .ok []
      | some (.arr xs) => mapME parseTokenItem xs
      | some _ => .error "evolution.parent_tokens must be a list"
    .ok { parent_tokens := pts, derivation_type := dt }
  | _ => .error "Failed to deserialize metadata from JSON"

/-- `Metadata._from_dict` (models.py lines 167-270): presence checks for
the required fields, enum parsing, attribute/provenance/evolution
parsing, explicit type checks for `timestamp` and
`generation_parameters`, construction and a final `validate()`. -/
def Metadata.from_dict (j : Json) : Except String Metadata := do
  let data ← match j with
    | .obj fields => .ok fields
    | _ => .error "Failed to deserialize metadata from JSON"
  let missing := requiredFields.filter (fun f => (pyDictGet data f).isNone)
  if missing ≠ [] then
    .error ("Missing required fields: " ++ String.intercalate ", " missing)
  else do
  let nameJ ← jfield data "name"
  let descJ ← jfield data "description"
  let imageJ ← jfield data "image"
  let ctJ ← jfield data "content_type"
  let content_type ← parseContentType ctJ
  let attributes ← parseAttributes (pyDictGet data "attributes")
  let provenance ← match pyDictGet data "provenance" with
    | none => .ok none
    | some pj => (parseProvenance pj).map some
  let evolution ← match pyDictGet data "evolution" with
    | none => .ok none
    | some ej => (parseEvolution ej).map some
  let timestamp ← match pyDictGet data "timestamp" with
    | some (.int n) => .ok n
    | _ => .error "timestamp must be an integer"
  let generation_parameters ← match pyDictGet data "generation_parameters" with
    | some (.obj gp) => .ok gp
    | _ => .error "generation_parameters must be a dictionary"
  let name ← requireJsonStr "name" nameJ
  let description ← requireJsonStr "description" descJ
  let image ← requireJsonStr "image" imageJ
  let content_hash ← jfield data "content_hash" >>= requireJsonStr "content_hash"
  let creator_address ← jfield data "creator_address" >>= requireJsonStr "creator_address"
  let prompt ← jfield data "prompt" >>= requireJsonStr "prompt"
  let model_version ← jfield data "model_version" >>= requireJsonStr "model_version"
  let md : Metadata :=
    { name := name, description := description, image := image,
      content_type := content_type, content_hash := content_hash,
      creator_address := creator_address, prompt := prompt,
      model_version := model_version, timestamp := timestamp,
      generation_parameters := generation_parameters,
      attributes := attributes, provenance := provenance,
      evolution := evolution }
  let _ ← md.validate
  .ok md

theorem parseContentType_enc (ct : ContentType) :
    parseContentType (.str (contentTypeValue ct)) = .ok ct := by
  cases ct <;> rfl

theorem parseDerivationType_enc (dt : DerivationType) :
    parseDerivationType (.str (derivationTypeValue dt)) = .ok dt := by
  cases dt <;> rfl

theorem parseAttr_enc (a : Attribute) : parseAttr (attrToJson a) = .ok a := rfl

theorem mapME_parseAttr (l : List Attribute) :
    mapME parseAttr (l.map attrToJson) = .ok l := by
  induction l with
  | nil => rfl
  | cons a t ih => simp [mapME, parseAttr_enc, except_bind_ok, ih]

theorem mapME_parseCollab (l : List String) :
    mapME parseCollabItem (l.map Json.str) = .ok l := by
  induction l with
  | nil => rfl
  | cons a t ih => simp [mapME, parseCollabItem, except_bind_ok, ih]

theorem mapME_parseToken (l : List Int) :
    mapME parseTokenItem (l.map Json.int) = .ok l := by
  induction l with
  | nil => rfl
  | cons a t ih => simp [mapME, parseTokenItem, except_bind_ok, ih]

theorem parseProvenance_enc (p : Provenance) :
    parseProvenance (provToJson p) = .ok p := by
  simp [parseProvenance, provToJson, jfield, pyDictGet, requireJsonStr,
    except_bind_ok, mapME_parseCollab]

theorem parseEvolution_enc (e : Evolution) :
    parseEvolution (evoToJson e) = .ok e := by
  simp [parseEvolution, evoToJson, jfield, pyDictGet, parseDerivationType_enc,
    except_bind_ok, mapME_parseToken]

set_option maxHeartbeats 2000000 in
/-- C2.  JSON round trip: every metadata record that passes `validate()`
is reproduced exactly by serialising with `_to_dict` (the dict that
`to_json` dumps) and re-parsing with `_from_dict` (the parser behind
`from_json`), including the optional provenance and evolution
sub-records and the attribute list. -/
theorem metadata_json_roundtrip (m : Metadata) (h : m.validate = .ok ()) :
    Metadata.from_dict (Metadata.to_dict m) = .ok m := by
  rcases m with ⟨name, desc, image, ct, chash, caddr, prompt, mv, ts, gp, attrs, prov, evo⟩
  cases prov <;> cases evo <;>
    simp only [Metadata.from_dict, Metadata.to_dict, requiredFields, pyDictGet, jfield,
      parseContentType_enc, parseAttributes, mapME_parseAttr, parseProvenance_enc,
      parseEvolution_enc, requireJsonStr, except_bind_ok, except_map_ok, except_pure,
      List.filter, Option.isNone, String.reduceEq, reduceIte, ne_eq,
      not_true_eq_false, not_false_eq_true, if_true, if_false] <;>
    rw [h] <;> rfl

/-- A sample valid metadata record exercising all optional parts. -/
def sampleMetadata : Metadata :=
  { name := "Art 1", description := "a piece", image := "ipfs://Qmx",
    content_type := .IMAGE, content_hash := "0xbeef",
    creator_address := "0xaaaaaaaaaaaaaaaaaaaaaaaaaaaaaaaaaaaaaaaa",
    prompt := "a cat", model_version := "stable-diffusion-xl-1.0", timestamp := 5,
    generation_parameters := [("steps", .int 30)],
    attributes := [{ trait_type := "AI Model", value := "sdxl" }],
    provenance := some
      { model_version := "sdxl", model_hash := "0x1", prompt_hash := "0x2",
        seed := 3, parameters := .obj [], timestamp := 2, creator := "0xab",
        collaborators := ["0xcd"] },
    evolution := some { parent_tokens := [(1 : Int)], derivation_type := .REMIX } }

/-- Witness for C2 at a concrete valid record. -/
theorem metadata_json_roundtrip_witness :
    Metadata.from_dict (Metadata.to_dict sampleMetadata) = .ok sampleMetadata :=
  metadata_json_roundtrip sampleMetadata (by rfl)

/-- A hexadecimal character (0-9, a-f, A-F). -/
def isHexChar (c : Char) : Bool :=
  (Char.ofNat 48 ≤ c && c ≤ Char.ofNat 57) ||
  (Char.ofNat 97 ≤ c && c ≤ Char.ofNat 102) ||
  (Char.ofNat 65 ≤ c && c ≤ Char.ofNat 70)

/-- The address format the spec states (`0x` followed by exactly 40 hex
characters), written from the spec sentence for comparison with what
`validate()` actually checks. -/
def specHexAddress (s : String) : Bool :=
  pyStartsWith s "0x" && (pyLen s == 42) && (s.data.drop 2).all isHexChar

/-- A metadata record whose `creator_address` is `0x` plus 40 letters
`z` -- not hexadecimal -- with every other field valid. -/
def cexMetadata : Metadata :=
  { name := "Art 1", description := "a piece", image := "ipfs://Qmx",
    content_type := .IMAGE, content_hash := "0xbeef",
    creator_address := "0xzzzzzzzzzzzzzzzzzzzzzzzzzzzzzzzzzzzzzzzz",
    prompt := "a cat", model_version := "m", timestamp := 5,
    generation_parameters := [], attributes := [],
    provenance := none, evolution := none }

/-- C4 counterexample: `validate()` accepts a `creator_address` that is
not `0x` followed by 40 hexadecimal characters (40 letters `z`), so
validation does not enforce the stated hex format. -/
theorem metadata_validate_hex_cex :
    Metadata.validate cexMetadata = .ok () ∧
    specHexAddress cexMetadata.creator_address = false := by
  constructor
  · rfl
  · decide

theorem pyStartsWith_0x_not_blank (s : String) (h : pyStartsWith s "0x" = true) :
    pyBlank s = false := by
  unfold pyStartsWith at h
  unfold pyBlank
  cases hd : s.data with
  | nil => rw [hd] at h; simp [List.isPrefixOf] at h
  | cons c t =>
    rw [hd] at h
    have hc : c = Char.ofNat 48 := by
      simp [List.isPrefixOf] at h
      exact h.1.symm
    subst hc
    simp [List.all_cons]

/-- C4 (amended).  `validate()` checks only that `creator_address`
starts with `0x` and has length exactly 42; it does not check that the
remaining 40 characters are hexadecimal.  For every record whose other
fields are valid, `validate()` succeeds iff the address has that
prefix-and-length shape. -/
theorem metadata_validate_address_iff (m : Metadata)
    (hname : pyBlank m.name = false)
    (hdesc : pyBlank m.description = false)
    (himage : pyBlank m.image = false)
    (hchash : pyBlank m.content_hash = false)
    (hprompt : pyBlank m.prompt = false)
    (hmv : pyBlank m.model_version = false)
    (hts : 0 < m.timestamp)
    (hattrs : validateAttributes 0 m.attributes = .ok ())
    (hprov : validateProvenanceOpt m.provenance = .ok ())
    (hevo : validateEvolutionOpt m.evolution = .ok ()) :
    m.validate = .ok () ↔
      (pyStartsWith m.creator_address "0x" = true ∧ pyLen m.creator_address = 42) := by
  have hts2 : ¬ (m.timestamp ≤ 0) := not_le.mpr hts
  constructor
  · intro hok
    have hblank : pyBlank m.creator_address = false := by
      by_contra hb
      rw [Bool.not_eq_false] at hb
      simp [Metadata.validate, checkNonEmptyString, hname, hdesc, himage, hchash,
        hb, except_bind_ok, except_bind_error] at hok
    by_cases h1 : pyStartsWith m.creator_address "0x" = true
    · by_cases h2 : pyLen m.creator_address = 42
      · exact ⟨h1, h2⟩
      · exfalso
        simp [Metadata.validate, checkNonEmptyString, hname, hdesc, himage, hchash,
          hblank, hprompt, hmv, h1, h2, except_bind_ok, except_bind_error] at hok
    · exfalso
      rw [Bool.not_eq_true] at h1
      simp [Metadata.validate, checkNonEmptyString, hname, hdesc, himage, hchash,
        hblank, hprompt, hmv, h1, except_bind_ok, except_bind_error] at hok
  · intro hpair
    have hblank := pyStartsWith_0x_not_blank m.creator_address hpair.1
    simp [Metadata.validate, checkNonEmptyString, hname, hdesc, himage, hchash,
      hblank, hprompt, hmv, hpair.1, hpair.2, hts2, hattrs, hprov, hevo,
      except_bind_ok, except_bind_error]

/-- Witness for the amended C4 at a concrete record. -/
theorem metadata_validate_address_iff_witness :
    Metadata.validate sampleMetadata = .ok () := by
  have h := metadata_validate_address_iff sampleMetadata rfl rfl rfl rfl rfl rfl
    (by decide) rfl rfl rfl
  exact h.mpr ⟨by decide, by decide⟩

/-! ## Content DNA engine (`app/services/dna_engine.py`)

State: `_dna_registry` maps DNA hashes to `ContentDNA`; `self._random`
is a PRNG whose draw stream is abstracted as `rand : Nat → ℚ` with a
consumed-draw counter kept in the engine state.
`generate_dna_from_prompt` reseeds the *global* `random` module from the
prompt hash and draws from it: those draws are `grand seed k`.
`json.dumps` of the gene-value dict (used only as hash input) is
abstracted as `dumpsGenes`. -/

/-- `GeneType` enum, in declaration order. -/
inductive GeneType where
  | COLOR
  | STYLE
  | MOOD
  | COMPLEXITY
  | ENERGY
  | HARMONY
  | CONTRAST
  | TEXTURE
  deriving DecidableEq, Repr

/-- The string value of a gene-type member. -/
def geneTypeValue : GeneType → String
  | .COLOR => "COLOR"
  | .STYLE => "STYLE"
  | .MOOD => "MOOD"
  | .COMPLEXITY => "COMPLEXITY"
  | .ENERGY => "ENERGY"
  | .HARMONY => "HARMONY"
  | .CONTRAST => "CONTRAST"
  | .TEXTURE => "TEXTURE"

/-- Iteration order of `for gene_type in GeneType`. -/
def allGeneTypes : List GeneType :=
  [.COLOR, .STYLE, .MOOD, .COMPLEXITY, .ENERGY, .HARMONY, .CONTRAST, .TEXTURE]

/-- `Gene` dataclass (dna_engine.py lines 31-38). -/
structure Gene where
  gene_type : GeneType
  value : ℚ
  dominant : Bool
  mutation_rate : ℚ
  deriving DecidableEq, Repr

/-- An entry of a `mutation_history` list: the dicts appended by
`breed_dna` (keys gene/original/mutated/source) and by `evolve_dna`
(keys gene/original/evolved/pressure). -/
inductive MutationRecord where
  | bredMut (gene : String) (original mutated : ℚ) (source : String)
  | envMut (gene : String) (original newValue pressure : ℚ)
  deriving DecidableEq, Repr

/-- `ContentDNA` dataclass (dna_engine.py lines 41-60). -/
structure ContentDNA where
  dna_hash : String
  genes : List (GeneType × Gene)
  generation : Int
  parent_hashes : List String
  mutation_history : List MutationRecord
  created_at : Int
  deriving DecidableEq, Repr

/-- The mutable state of `ContentDNAEngine`: the registry and the number
of draws consumed from `self._random`. -/
structure ContentDNAEngine where
  dna_registry : List (String × ContentDNA)
  rng_count : Nat
  deriving DecidableEq, Repr

/-- The deterministic functions the engine draws on:
`sha` is `hashlib.sha256(..).hexdigest()`, `dumpsGenes` is `json.dumps`
of the (sorted) gene-value dict, `rand k` is the `k`-th
`self._random.random()`, and `grand s k` the `k`-th `random.random()`
after `random.seed(s)`. -/
structure DNAOracle where
  sha : List Nat → String
  dumpsGenes : List (GeneType × ℚ) → String
  rand : Nat → ℚ
  grand : Nat → Nat → ℚ

/-- Value of one hex digit. -/
def hexDigitVal (c : Char) : Option Nat :=
  if Char.ofNat 48 ≤ c ∧ c ≤ Char.ofNat 57 then some (c.toNat - 48)
  else if Char.ofNat 97 ≤ c ∧ c ≤ Char.ofNat 102 then some (c.toNat - 87)
  else if Char.ofNat 65 ≤ c ∧ c ≤ Char.ofNat 70 then some (c.toNat - 55)
  else none

/-- Auxiliary accumulator for `int(s, 16)`. -/
def hexAcc : List Char → Nat → Option Nat
  | [], acc => some acc
  | c :: rest, acc =>
    match hexDigitVal c with
    | some d => hexAcc rest (acc * 16 + d)
    | none => none

/-- Python `int(s, 16)` on the inputs the engine produces (a slice of a
hex digest): any non-hex character or an empty string raises. -/
def pyIntHex (s : String) : Except PyErr Nat :=
  if s.data.isEmpty then
    .error (.valueError "invalid literal for int with base 16")
  else
    match hexAcc s.data 0 with
    | some n => .ok n
    | none => .error (.valueError "invalid literal for int with base 16")

/-- Keyword adjustment tables of `_analyze_prompt_for_gene`
(dna_engine.py lines 200-258), float literals as exact decimals. -/
def geneKeywords : GeneType → List (String × ℚ)
  | .COLOR => [("bright", 1/5), ("dark", -(1/5)), ("colorful", 3/10),
      ("monochrome", -(3/10)), ("vibrant", 1/4), ("muted", -(3/20))]
  | .STYLE => [("abstract", 3/10), ("realistic", -(1/5)), ("cartoon", 1/5),
      ("photorealistic", -(3/10)), ("artistic", 3/20)]
  | .MOOD => [("happy", 3/10), ("sad", -(1/5)), ("peaceful", 1/10),
      ("energetic", 1/5), ("calm", -(1/10)), ("dramatic", 3/20)]
  | .COMPLEXITY => [("simple", -(3/10)), ("complex", 3/10), ("minimal", -(1/4)),
      ("detailed", 1/4), ("intricate", 7/20)]
  | .ENERGY => [("dynamic", 3/10), ("static", -(1/5)), ("moving", 1/5),
      ("still", -(3/20)), ("action", 1/4)]
  | .HARMONY => [("balanced", 1/5), ("chaotic", -(1/5)), ("symmetric", 3/20),
      ("asymmetric", -(1/10)), ("unified", 1/5)]
  | .CONTRAST => [("high contrast", 3/10), ("low contrast", -(1/5)),
      ("bold", 1/5), ("subtle", -(3/20))]
  | .TEXTURE => [("smooth", -(1/5)), ("rough", 1/5), ("textured", 1/4),
      ("glossy", -(1/10)), ("matte", 1/10)]

/-- `ContentDNAEngine._analyze_prompt_for_gene` (dna_engine.py lines
195-264): sums the table values of keywords contained in the lowercased
prompt. -/
def analyze_prompt_for_gene (prompt : String) (gt : GeneType) : ℚ :=
  let prompt_lower := pyLower prompt
  (geneKeywords gt).foldl
    (fun adj kv => if pyInStr kv.1 prompt_lower then adj + kv.2 else adj) 0

/-- A numeric JSON value as Python sees it inside `min`/`max`
(`bool` is numeric in Python); anything else raises a `TypeError`. -/
def jsonToNum : Json → Except PyErr ℚ
  | .int n => .ok (n : ℚ)
  | .float q => .ok q
  | .bool b => .ok (if b then 1 else 0)
  | _ => .error (.typeError "unsupported operand type for min")

/-- `ContentDNAEngine._apply_style_to_genes` (dna_engine.py lines
266-274): overrides a gene value with the clamped style value when the
lowercased gene name is a style key. -/
def apply_style_to_genes (genes : List (GeneType × Gene))
    (style : List (String × Json)) : Except PyErr (List (GeneType × Gene)) :=
  mapME (fun p =>
    match pyDictGet style (pyLower (geneTypeValue p.1)) with
    | none => .ok p
    | some v => do
      let q ← jsonToNum v
      .ok (p.1, { p.2 with value := clamp01 q })) genes

/-- The gene built for one gene type by `generate_dna_from_prompt`
(dna_engine.py lines 163-176): three global draws per gene, in source
order (base value, dominance, mutation rate). -/
def generateGene (o : DNAOracle) (prompt : String) (seed : Nat) (i : Nat)
    (gt : GeneType) : Gene :=
  let base_value := o.grand seed (3 * i)
  let adjusted_value := clamp01 (base_value + analyze_prompt_for_gene prompt gt)
  { gene_type := gt, value := adjusted_value,
    dominant := decide (o.grand seed (3 * i + 1) > 3/10),
    mutation_rate := 3/100 + o.grand seed (3 * i + 2) * (4/100) }

/-- `"DNA_" + sha256(json.dumps(gene value dict))[:32]`. -/
def dnaHashOf (o : DNAOracle) (genes : List (GeneType × Gene)) : String :=
  "DNA_" ++ (o.sha (pyEncodeUtf8 (o.dumpsGenes
    (genes.map (fun p => (p.1, p.2.value)))))).take 32

/-- `ContentDNAEngine.generate_dna_from_prompt` (dna_engine.py lines
141-193).  `if style:` is Python truthiness: `None` and the empty dict
both skip the override. -/
def generate_dna_from_prompt (o : DNAOracle) (now : Int) (st : ContentDNAEngine)
    (prompt : String) (style : Option (List (String × Json))) :
    Except PyErr (ContentDNA × ContentDNAEngine) := do
  let seed ← pyIntHex ((o.sha (pyEncodeUtf8 prompt)).take 8)
  let genes := allGeneTypes.enum.map (fun p => (p.2, generateGene o prompt seed p.1 p.2))
  let genes ← match style with
    | none => .ok genes
    | some styl => if styl.isEmpty then .ok genes else apply_style_to_genes genes styl
  let dna_hash := dnaHashOf o genes
  let dna : ContentDNA :=
    { dna_hash := dna_hash, genes := genes, generation := 0, parent_hashes := [],
      mutation_history := [], created_at := now }
  .ok (dna, { dna_registry := pyDictInsert st.dna_registry dna_hash dna,
              rng_count := st.rng_count })

/-- The dominance-based inheritance choice of the breeding loop
(dna_engine.py lines 313-323): the inherited base value and its source
label. -/
def breedBase (g1 g2 : Gene) : ℚ × String :=
  if g1.dominant && !g2.dominant then (g1.value, "parent1")
  else if g2.dominant && !g1.dominant then (g2.value, "parent2")
  else ((g1.value + g2.value) / 2, "blend")

/-- The mutation part of the breeding loop (dna_engine.py lines
325-341): final value, mutation records, and the draw counter after the
mutation test (one draw) and optional mutation amount (one more). -/
def breedValue (o : DNAOracle) (mb : ℚ) (gt : GeneType) (g1 g2 : Gene)
    (c : Nat) : ℚ × List MutationRecord × Nat :=
  let base_value := (breedBase g1 g2).1
  let mutation_rate := max g1.mutation_rate g2.mutation_rate + mb
  if o.rand c < mutation_rate then
    let fv := clamp01 (base_value + (o.rand (c + 1) - 1/2) * (2/5))
    (fv, [.bredMut (geneTypeValue gt) base_value fv (breedBase g1 g2).2], c + 2)
  else (base_value, [], c + 1)

/-- The inherited mutation rate (dna_engine.py lines 343-346): parent
average plus a small variation, clamped to `[0.01, 0.15]`. -/
def breedNewMr (o : DNAOracle) (g1 g2 : Gene) (c2 : Nat) : ℚ :=
  max (1/100) (min (15/100)
    ((g1.mutation_rate + g2.mutation_rate) / 2 + (o.rand c2 - 1/2) * (1/100)))

/-- The per-gene body of the breeding loop (dna_engine.py lines
306-353), with the draw counter threaded in source order: mutation test,
optional mutation amount, mutation-rate variation, dominance. -/
def breedGeneStep (o : DNAOracle) (mb : ℚ) (gt : GeneType) (g1 g2 : Gene)
    (c : Nat) : Gene × List MutationRecord × Nat :=
  let fvm := breedValue o mb gt g1 g2 c
  let c2 := fvm.2.2
  ({ gene_type := gt, value := fvm.1,
     dominant := decide (o.rand (c2 + 1) > 3/10),
     mutation_rate := breedNewMr o g1 g2 c2 },
   fvm.2.1, c2 + 2)

/-- The breeding loop over all gene types (dna_engine.py lines 306-353):
a gene type missing from either parent is skipped. -/
def breedGenesAux (o : DNAOracle) (mb : ℚ) (g1s g2s : List (GeneType × Gene)) :
    List GeneType → Nat → List (GeneType × Gene) × List MutationRecord × Nat
  | [], c => ([], [], c)
  | gt :: rest, c =>
    match pyDictGet g1s gt, pyDictGet g2s gt with
    | some g1, some g2 =>
      let step := breedGeneStep o mb gt g1 g2 c
      let tail := breedGenesAux o mb g1s g2s rest step.2.2
      ((gt, step.1) :: tail.1, step.2.1 ++ tail.2.1, tail.2.2)
    | _, _ => breedGenesAux o mb g1s g2s rest c

/-- `ContentDNAEngine.breed_dna` (dna_engine.py lines 276-370).  The
engine state is returned alongside the outcome: on a missing parent the
`ValueError` is raised before any mutation, so the state is returned
unchanged. -/
def breed_dna (o : DNAOracle) (now : Int) (st : ContentDNAEngine)
    (parent1_hash parent2_hash : String) (mutation_boost : ℚ) :
    Except PyErr ContentDNA × ContentDNAEngine :=
  match pyDictGet st.dna_registry parent1_hash with
  | none => (.error (.valueError ("Parent DNA not found: " ++ parent1_hash)), st)
  | some parent1 =>
    match pyDictGet st.dna_registry parent2_hash with
    | none => (.error (.valueError ("Parent DNA not found: " ++ parent2_hash)), st)
    | some parent2 =>
      let res := breedGenesAux o mutation_boost parent1.genes parent2.genes
        allGeneTypes st.rng_count
      let child_hash := dnaHashOf o res.1
      let child : ContentDNA :=
        { dna_hash := child_hash, genes := res.1,
          generation := max parent1.generation parent2.generation + 1,
          parent_hashes := [parent1_hash, parent2_hash],
          mutation_history := res.2.1, created_at := now }
      (.ok child, { dna_registry := pyDictInsert st.dna_registry child_hash child,
                    rng_count := res.2.2 })

/-- The per-gene body of the evolution loop (dna_engine.py lines
392-419): one draw per gene; `gene_type`, `dominant` and
`mutation_rate` are copied, only `value` is recomputed.  (With an empty
factor dict Python skips the lookup, which yields the same pressure 0 as
a failed lookup, so the truthiness test collapses.) -/
def evolveGeneStep (o : DNAOracle) (factors : Option (List (String × ℚ)))
    (gt : GeneType) (g : Gene) (c : Nat) : Gene × List MutationRecord × Nat :=
  let pressure : ℚ :=
    match factors with
    | none => 0
    | some fs => (pyDictGet fs (pyLower (geneTypeValue gt))).getD 0
  let evolution_amount := (o.rand c - 1/2) * (1/10) + pressure * (1/20)
  let new_value := clamp01 (g.value + evolution_amount)
  let muts : List MutationRecord :=
    if |new_value - g.value| > 1/50 then
      [.envMut (geneTypeValue gt) g.value new_value pressure]
    else []
  ({ gene_type := gt, value := new_value, dominant := g.dominant,
     mutation_rate := g.mutation_rate }, muts, c + 1)

/-- The evolution loop over `original.genes.items()` (dna_engine.py
lines 392-419). -/
def evolveGenesAux (o : DNAOracle) (factors : Option (List (String × ℚ))) :
    List (GeneType × Gene) → Nat → List (GeneType × Gene) × List MutationRecord × Nat
  | [], c => ([], [], c)
  | (gt, g) :: rest, c =>
    let step := evolveGeneStep o factors gt g c
    let tail := evolveGenesAux o factors rest step.2.2
    ((gt, step.1) :: tail.1, step.2.1 ++ tail.2.1, tail.2.2)

/-- `ContentDNAEngine.evolve_dna` (dna_engine.py lines 372-437). -/
def evolve_dna (o : DNAOracle) (now : Int) (st : ContentDNAEngine)
    (dna_hash : String) (factors : Option (List (String × ℚ))) :
    Except PyErr ContentDNA × ContentDNAEngine :=
  match pyDictGet st.dna_registry dna_hash with
  | none => (.error (.valueError ("DNA not found: " ++ dna_hash)), st)
  | some original =>
    let res := evolveGenesAux o factors original.genes st.rng_count
    let evolved_hash := dnaHashOf o res.1
    let evolved : ContentDNA :=
      { dna_hash := evolved_hash, genes := res.1,
        generation := original.generation,
        parent_hashes := [dna_hash],
        mutation_history := original.mutation_history ++ res.2.1,
        created_at := now }
    (.ok evolved, { dna_registry := pyDictInsert st.dna_registry evolved_hash evolved,
                    rng_count := res.2.2 })

/-! ### Range invariants of the DNA engine -/

/-- The documented gene ranges: value in `[0, 1]`, mutation rate in
`(0, 1)`. -/
def geneInRange (g : Gene) : Prop :=
  0 ≤ g.value ∧ g.value ≤ 1 ∧ 0 < g.mutation_rate ∧ g.mutation_rate < 1

/-- Every gene of a DNA is in range. -/
def dnaInRange (d : ContentDNA) : Prop := ∀ p ∈ d.genes, geneInRange p.2

/-- Every DNA of a registry is in range. -/
def registryInRange (reg : List (String × ContentDNA)) : Prop :=
  ∀ p ∈ reg, dnaInRange p.2

/-- A PRNG stream as `random.random()` produces it: draws in `[0, 1)`. -/
def unitRange (f : Nat → ℚ) : Prop := ∀ k, 0 ≤ f k ∧ f k < 1

instance (g : Gene) : Decidable (geneInRange g) := by
  unfold geneInRange; infer_instance

instance (d : ContentDNA) : Decidable (dnaInRange d) := by
  unfold dnaInRange; exact List.decidableBAll _ _

instance (reg : List (String × ContentDNA)) : Decidable (registryInRange reg) := by
  unfold registryInRange; exact List.decidableBAll _ _

theorem pyDictGet_mem [DecidableEq K] {l : List (K × V)} {k : K} {v : V}
    (h : pyDictGet l k = some v) : (k, v) ∈ l := by
  induction l with
  | nil => simp [pyDictGet] at h
  | cons hd tl ih =>
    rcases hd with ⟨k0, v0⟩
    by_cases h0 : k0 = k
    · subst h0
      have hv : v0 = v := by simpa [pyDictGet] using h
      subst hv
      exact List.mem_cons_self _ _
    · simp only [pyDictGet, h0, if_false] at h
      exact List.mem_cons_of_mem _ (ih h)

theorem registry_insert_inRange {reg : List (String × ContentDNA)} {k : String}
    {dna : ContentDNA} (hreg : registryInRange reg) (h : dnaInRange dna) :
    registryInRange (pyDictInsert reg k dna) := by
  intro p hp
  rcases mem_pyDictInsert hp with h2 | h2
  · rw [h2]
    exact h
  · exact hreg p h2

theorem generateGene_inRange (o : DNAOracle) (prompt : String) (seed i : Nat)
    (gt : GeneType) (hg : unitRange (o.grand seed)) :
    geneInRange (generateGene o prompt seed i gt) := by
  obtain ⟨h0, h1⟩ := hg (3 * i + 2)
  refine ⟨clamp01_nonneg _, clamp01_le_one _, ?_, ?_⟩
  · show (0:ℚ) < 3/100 + o.grand seed (3*i+2) * (4/100)
    nlinarith
  · show 3/100 + o.grand seed (3*i+2) * (4/100) < 1
    nlinarith

theorem breed_mr_pos_lt (o : DNAOracle) (g1 g2 : Gene) (c2 : Nat) :
    0 < breedNewMr o g1 g2 c2 ∧ breedNewMr o g1 g2 c2 < 1 := by
  unfold breedNewMr
  constructor
  · exact lt_of_lt_of_le (by norm_num) (le_max_left _ _)
  · rw [max_lt_iff]
    exact ⟨by norm_num, lt_of_le_of_lt (min_le_left _ _) (by norm_num)⟩

theorem breedBase_fst_range (g1 g2 : Gene)
    (h1v0 : 0 ≤ g1.value) (h1v1 : g1.value ≤ 1)
    (h2v0 : 0 ≤ g2.value) (h2v1 : g2.value ≤ 1) :
    0 ≤ (breedBase g1 g2).1 ∧ (breedBase g1 g2).1 ≤ 1 := by
  unfold breedBase
  split_ifs <;> dsimp only <;> constructor <;> first | assumption | linarith

theorem breedValue_fst_range (o : DNAOracle) (mb : ℚ) (gt : GeneType)
    (g1 g2 : Gene) (c : Nat)
    (h1v0 : 0 ≤ g1.value) (h1v1 : g1.value ≤ 1)
    (h2v0 : 0 ≤ g2.value) (h2v1 : g2.value ≤ 1) :
    0 ≤ (breedValue o mb gt g1 g2 c).1 ∧ (breedValue o mb gt g1 g2 c).1 ≤ 1 := by
  obtain ⟨hb0, hb1⟩ := breedBase_fst_range g1 g2 h1v0 h1v1 h2v0 h2v1
  simp only [breedValue]
  by_cases hc : o.rand c < max g1.mutation_rate g2.mutation_rate + mb
  · rw [if_pos hc]
    exact ⟨clamp01_nonneg _, clamp01_le_one _⟩
  · rw [if_neg hc]
    exact ⟨hb0, hb1⟩

theorem breedGeneStep_inRange (o : DNAOracle) (mb : ℚ) (gt : GeneType)
    (g1 g2 : Gene) (c : Nat) (h1 : geneInRange g1) (h2 : geneInRange g2) :
    geneInRange (breedGeneStep o mb gt g1 g2 c).1 := by
  obtain ⟨h1v0, h1v1, h1m0, h1m1⟩ := h1
  obtain ⟨h2v0, h2v1, h2m0, h2m1⟩ := h2
  obtain ⟨hv0, hv1⟩ := breedValue_fst_range o mb gt g1 g2 c h1v0 h1v1 h2v0 h2v1
  exact ⟨hv0, hv1, (breed_mr_pos_lt o g1 g2 _).1, (breed_mr_pos_lt o g1 g2 _).2⟩

theorem breedGenesAux_inRange (o : DNAOracle) (mb : ℚ)
    (g1s g2s : List (GeneType × Gene))
    (h1 : ∀ gt g, pyDictGet g1s gt = some g → geneInRange g)
    (h2 : ∀ gt g, pyDictGet g2s gt = some g → geneInRange g) :
    ∀ (gts : List GeneType) (c : Nat) p,
      p ∈ (breedGenesAux o mb g1s g2s gts c).1 → geneInRange p.2 := by
  intro gts
  induction gts with
  | nil => intro c p hp; simp [breedGenesAux] at hp
  | cons gt rest ih =>
    intro c p hp
    cases hg1 : pyDictGet g1s gt with
    | none =>
      rw [show breedGenesAux o mb g1s g2s (gt :: rest) c =
          breedGenesAux o mb g1s g2s rest c by simp [breedGenesAux, hg1]] at hp
      exact ih c p hp
    | some g1 =>
      cases hg2 : pyDictGet g2s gt with
      | none =>
        rw [show breedGenesAux o mb g1s g2s (gt :: rest) c =
            breedGenesAux o mb g1s g2s rest c by simp [breedGenesAux, hg1, hg2]] at hp
        exact ih c p hp
      | some g2 =>
        simp only [breedGenesAux, hg1, hg2] at hp
        rcases List.mem_cons.mp hp with hpe | hpe
        · rw [hpe]
          exact breedGeneStep_inRange o mb gt g1 g2 c (h1 gt g1 hg1) (h2 gt g2 hg2)
        · exact ih _ p hpe

theorem evolveGeneStep_inRange (o : DNAOracle) (factors : Option (List (String × ℚ)))
    (gt : GeneType) (g : Gene) (c : Nat) (hg : geneInRange g) :
    geneInRange (evolveGeneStep o factors gt g c).1 :=
  ⟨clamp01_nonneg _, clamp01_le_one _, hg.2.2.1, hg.2.2.2⟩

theorem evolveGenesAux_inRange (o : DNAOracle) (factors : Option (List (String × ℚ))) :
    ∀ (gl : List (GeneType × Gene)) (c : Nat) p,
      (∀ q ∈ gl, geneInRange q.2) →
      p ∈ (evolveGenesAux o factors gl c).1 → geneInRange p.2 := by
  intro gl
  induction gl with
  | nil => intro c p _ hp; simp [evolveGenesAux] at hp
  | cons q rest ih =>
    intro c p hall hp
    rcases q with ⟨gt, g⟩
    simp only [evolveGenesAux] at hp
    rcases List.mem_cons.mp hp with hpe | hpe
    · rw [hpe]
      exact evolveGeneStep_inRange o factors gt g c (hall (gt, g) (List.mem_cons_self _ _))
    · exact ih _ p (fun q2 hq => hall q2 (List.mem_cons_of_mem _ hq)) hpe

theorem mapME_ok_cons {f : A → Except E B} {a : A} {t : List A} {out : List B}
    (h : mapME f (a :: t) = .ok out) :
    ∃ b bs, f a = .ok b ∧ mapME f t = .ok bs ∧ out = b :: bs := by
  cases hfa : f a with
  | error e => simp [mapME, hfa, except_bind_error] at h
  | ok b =>
    cases hmt : mapME f t with
    | error e => simp [mapME, hfa, hmt, except_bind_ok, except_bind_error] at h
    | ok bs =>
      simp only [mapME, hfa, hmt, except_bind_ok, Except.ok.injEq] at h
      exact ⟨b, bs, rfl, rfl, h.symm⟩

theorem apply_style_inRange (style : List (String × Json)) :
    ∀ (genes out : List (GeneType × Gene)),
      (∀ p ∈ genes, geneInRange p.2) →
      apply_style_to_genes genes style = .ok out →
      ∀ p ∈ out, geneInRange p.2 := by
  intro genes
  induction genes with
  | nil =>
    intro out _ hok p hp
    simp only [apply_style_to_genes, mapME, Except.ok.injEq] at hok
    subst hok
    simp at hp
  | cons a rest ih =>
    intro out h hok p hp
    unfold apply_style_to_genes at hok
    obtain ⟨b, bs, hfa, hmt, hout⟩ := mapME_ok_cons hok
    subst hout
    rcases List.mem_cons.mp hp with hpe | hpe
    · subst hpe
      have ha := h a (List.mem_cons_self _ _)
      revert hfa
      cases hv : pyDictGet style (pyLower (geneTypeValue a.1)) with
      | none =>
        intro hfa
        simp only [Except.ok.injEq] at hfa
        rw [← hfa]
        exact ha
      | some v =>
        intro hfa
        cases hq : jsonToNum v with
        | error e => simp [hq, except_bind_error] at hfa
        | ok q =>
          simp only [hq, except_bind_ok, Except.ok.injEq] at hfa
          rw [← hfa]
          exact ⟨clamp01_nonneg _, clamp01_le_one _, ha.2.2.1, ha.2.2.2⟩
    · exact ih bs (fun q hq => h q (List.mem_cons_of_mem _ hq)) hmt p hpe


/-- `Except.is_ok`-style test used to state the failure-mode claims. -/
def isOkE : Except E A → Bool
  | .ok _ => true
  | .error _ => false

/-- C5.  The engine fails only on a missing lookup key: `breed_dna`
errors iff a parent hash is unregistered and `evolve_dna` errors iff the
given hash is unregistered; every error leaves the engine state (and so
the registry) unchanged, and with all supplied hashes registered both
operations return a new `ContentDNA`. -/
theorem dna_engine_error_iff_missing_key (o : DNAOracle) (now : Int)
    (st : ContentDNAEngine) (p1 p2 hash : String) (mb : Rat)
    (factors : Option (List (String × Rat))) :
    (isOkE (breed_dna o now st p1 p2 mb).1 = false ↔
      pyDictGet st.dna_registry p1 = none ∨ pyDictGet st.dna_registry p2 = none) ∧
    ((pyDictGet st.dna_registry p1 = none ∨ pyDictGet st.dna_registry p2 = none) →
      (breed_dna o now st p1 p2 mb).2 = st) ∧
    (isOkE (evolve_dna o now st hash factors).1 = false ↔
      pyDictGet st.dna_registry hash = none) ∧
    (pyDictGet st.dna_registry hash = none →
      (evolve_dna o now st hash factors).2 = st) := by
  cases h1 : pyDictGet st.dna_registry p1 <;>
  cases h2 : pyDictGet st.dna_registry p2 <;>
  cases h3 : pyDictGet st.dna_registry hash <;>
    simp [breed_dna, evolve_dna, isOkE, h1, h2, h3]

/-- A concrete oracle for witnesses: constant PRNG streams in range. -/
def sampleOracle : DNAOracle :=
  { sha := fun _ => "0123456789abcdef0123456789abcdef0123456789abcdef0123456789abcdef",
    dumpsGenes := fun _ => "g", rand := fun _ => 0, grand := fun _ _ => 0 }

/-- A concrete in-range gene. -/
def sampleGene : Gene :=
  { gene_type := .COLOR, value := 1/2, dominant := true, mutation_rate := 1/20 }

/-- A concrete registered DNA. -/
def sampleDNA : ContentDNA :=
  { dna_hash := "A", genes := [(.COLOR, sampleGene)], generation := 0,
    parent_hashes := [], mutation_history := [], created_at := 0 }

/-- A concrete engine state with one registered DNA. -/
def sampleEngine : ContentDNAEngine :=
  { dna_registry := [("A", sampleDNA)], rng_count := 0 }

/-- Witness for C5: breeding with an unregistered second parent leaves
the state unchanged, and evolving a registered hash succeeds. -/
theorem dna_engine_error_iff_missing_key_witness :
    (breed_dna sampleOracle 0 sampleEngine "A" "B" 0).2 = sampleEngine ∧
    isOkE (evolve_dna sampleOracle 0 sampleEngine "A" none).1 = true := by
  have h := dna_engine_error_iff_missing_key sampleOracle 0 sampleEngine "A" "B" "A" 0 none
  refine ⟨h.2.1 (Or.inr rfl), ?_⟩
  cases hb : isOkE (evolve_dna sampleOracle 0 sampleEngine "A" none).1
  · have h3 := h.2.2.1.mp hb
    rw [show pyDictGet sampleEngine.dna_registry "A" = some sampleDNA from rfl] at h3
    exact absurd h3 (by simp)
  · rfl

theorem dna_gene_range_invariant (o : DNAOracle) (now : Int) (st : ContentDNAEngine)
    (prompt : String) (style : Option (List (String × Json))) (p1 p2 hash : String)
    (mb : Rat) (factors : Option (List (String × Rat)))
    (_hrand : unitRange o.rand) (hgrand : ∀ s, unitRange (o.grand s))
    (hreg : registryInRange st.dna_registry) (_hmb0 : 0 ≤ mb) (_hmb1 : mb ≤ 1) :
    (∀ dna st2, generate_dna_from_prompt o now st prompt style = .ok (dna, st2) →
      dnaInRange dna ∧ registryInRange st2.dna_registry) ∧
    (∀ dna, (breed_dna o now st p1 p2 mb).1 = .ok dna →
      dnaInRange dna ∧ registryInRange (breed_dna o now st p1 p2 mb).2.dna_registry) ∧
    (∀ dna, (evolve_dna o now st hash factors).1 = .ok dna →
      dnaInRange dna ∧ registryInRange (evolve_dna o now st hash factors).2.dna_registry) := by
  refine ⟨?_, ?_, ?_⟩
  · intro dna st2 hok
    unfold generate_dna_from_prompt at hok
    cases hseed : pyIntHex ((o.sha (pyEncodeUtf8 prompt)).take 8) with
    | error e => rw [hseed] at hok; simp [except_bind_error] at hok
    | ok seed =>
      rw [hseed] at hok
      simp only [except_bind_ok] at hok
      have hbase : ∀ p ∈ allGeneTypes.enum.map
          (fun p => (p.2, generateGene o prompt seed p.1 p.2)), geneInRange p.2 := by
        intro p hp
        rcases List.mem_map.mp hp with ⟨q, _, hq⟩
        rw [← hq]
        exact generateGene_inRange o prompt seed q.1 q.2 (hgrand seed)
      have hfin : ∀ (genes2 : List (GeneType × Gene)),
          (∀ p ∈ genes2, geneInRange p.2) →
          dna = { dna_hash := dnaHashOf o genes2, genes := genes2, generation := 0,
                  parent_hashes := [], mutation_history := [], created_at := now } →
          st2 = { dna_registry := pyDictInsert st.dna_registry (dnaHashOf o genes2)
                    { dna_hash := dnaHashOf o genes2, genes := genes2, generation := 0,
                      parent_hashes := [], mutation_history := [], created_at := now },
                  rng_count := st.rng_count } →
          dnaInRange dna ∧ registryInRange st2.dna_registry := by
        intro genes2 hall hdna hst2
        constructor
        · rw [hdna]
          exact hall
        · rw [hst2]
          exact registry_insert_inRange hreg hall
      cases style with
      | none =>
        simp only [except_bind_ok, Except.ok.injEq, Prod.mk.injEq] at hok
        exact hfin _ hbase hok.1.symm hok.2.symm
      | some styl =>
        by_cases hsty : styl.isEmpty
        · simp only [hsty, reduceIte, except_bind_ok, Except.ok.injEq,
            Prod.mk.injEq] at hok
          exact hfin _ hbase hok.1.symm hok.2.symm
        · simp only [hsty, Bool.false_eq_true, reduceIte] at hok
          cases hsa : apply_style_to_genes (allGeneTypes.enum.map
              (fun p => (p.2, generateGene o prompt seed p.1 p.2))) styl with
          | error e => rw [hsa] at hok; simp [except_bind_error] at hok
          | ok genes2 =>
            rw [hsa] at hok
            simp only [except_bind_ok, Except.ok.injEq, Prod.mk.injEq] at hok
            exact hfin genes2 (apply_style_inRange styl _ genes2 hbase hsa)
              hok.1.symm hok.2.symm
  · intro dna hok
    unfold breed_dna at hok
    cases hq1 : pyDictGet st.dna_registry p1 with
    | none => rw [hq1] at hok; simp at hok
    | some parent1 =>
      cases hq2 : pyDictGet st.dna_registry p2 with
      | none => rw [hq1, hq2] at hok; simp at hok
      | some parent2 =>
        rw [hq1, hq2] at hok
        simp only [Except.ok.injEq] at hok
        have hp1 := hreg (p1, parent1) (pyDictGet_mem hq1)
        have hp2 := hreg (p2, parent2) (pyDictGet_mem hq2)
        have hgenes : ∀ p ∈ (breedGenesAux o mb parent1.genes parent2.genes
            allGeneTypes st.rng_count).1, geneInRange p.2 :=
          breedGenesAux_inRange o mb parent1.genes parent2.genes
            (fun gt g hg => hp1 (gt, g) (pyDictGet_mem hg))
            (fun gt g hg => hp2 (gt, g) (pyDictGet_mem hg))
            allGeneTypes st.rng_count
        constructor
        · rw [← hok]
          exact hgenes
        · simp only [breed_dna, hq1, hq2]
          exact registry_insert_inRange hreg hgenes
  · intro dna hok
    unfold evolve_dna at hok
    cases hq : pyDictGet st.dna_registry hash with
    | none => rw [hq] at hok; simp at hok
    | some original =>
      rw [hq] at hok
      simp only [Except.ok.injEq] at hok
      have horig := hreg (hash, original) (pyDictGet_mem hq)
      have hgenes : ∀ p ∈ (evolveGenesAux o factors original.genes st.rng_count).1,
          geneInRange p.2 :=
        fun p hp => evolveGenesAux_inRange o factors original.genes st.rng_count p horig hp
      constructor
      · rw [← hok]
        exact hgenes
      · simp only [evolve_dna, hq]
        exact registry_insert_inRange hreg hgenes

/-- Witness for C9: the sample registry is in range and the evolved DNA
of a registered hash stays in range. -/
theorem dna_gene_range_invariant_witness :
    dnaInRange sampleDNA ∧
    (match (evolve_dna sampleOracle 0 sampleEngine "A" none).1 with
     | .ok d => dnaInRange d
     | .error _ => False) := by
  have hg : geneInRange sampleGene := by
    refine ⟨?_, ?_, ?_, ?_⟩ <;> norm_num [sampleGene]
  have hd : dnaInRange sampleDNA := by
    intro p hp
    simp only [sampleDNA, List.mem_singleton] at hp
    rw [hp]
    exact hg
  have hr : registryInRange sampleEngine.dna_registry := by
    intro p hp
    simp only [sampleEngine, List.mem_singleton] at hp
    rw [hp]
    exact hd
  have h := dna_gene_range_invariant sampleOracle 0 sampleEngine "x" none "A" "A" "A" 0 none
    (by intro k; exact show (0:Rat) ≤ 0 ∧ (0:Rat) < 1 by constructor <;> norm_num)
    (by intro s k; exact show (0:Rat) ≤ 0 ∧ (0:Rat) < 1 by constructor <;> norm_num)
    hr (by norm_num) (by norm_num)
  refine ⟨hd, ?_⟩
  cases hev : (evolve_dna sampleOracle 0 sampleEngine "A" none).1 with
  | ok d => exact (h.2.2 d hev).1
  | error e =>
    have hok2 : isOkE (evolve_dna sampleOracle 0 sampleEngine "A" none).1 = true := rfl
    rw [hev] at hok2
    simp [isOkE] at hok2

theorem evolveGenesAux_forall2 (o : DNAOracle) (factors : Option (List (String × Rat))) :
    ∀ (gl : List (GeneType × Gene)) (c : Nat),
      List.Forall₂ (fun p q : GeneType × Gene =>
        q.1 = p.1 ∧ q.2.dominant = p.2.dominant ∧ q.2.mutation_rate = p.2.mutation_rate)
        gl (evolveGenesAux o factors gl c).1 := by
  intro gl
  induction gl with
  | nil => intro c; simp [evolveGenesAux]
  | cons p rest ih =>
    intro c
    rcases p with ⟨gt, g⟩
    exact List.Forall₂.cons ⟨rfl, rfl, rfl⟩ (ih _)

set_option maxRecDepth 4000 in
/-- C10.  Evolution does not advance lineage bookkeeping: the evolved
DNA keeps the original generation, its `parent_hashes` is exactly the
one-element list of the evolved hash, every gene keeps its `dominant`
flag and `mutation_rate` (gene for gene, in order), and the mutation
history only extends the original one. -/
theorem evolve_preserves_lineage_bookkeeping (o : DNAOracle) (now : Int)
    (st : ContentDNAEngine) (hash : String) (factors : Option (List (String × Rat)))
    (orig : ContentDNA) (horig : pyDictGet st.dna_registry hash = some orig) :
    ∀ dna, (evolve_dna o now st hash factors).1 = .ok dna →
      dna.generation = orig.generation ∧
      dna.parent_hashes = [hash] ∧
      List.Forall₂ (fun p q : GeneType × Gene =>
        q.1 = p.1 ∧ q.2.dominant = p.2.dominant ∧ q.2.mutation_rate = p.2.mutation_rate)
        orig.genes dna.genes ∧
      ∃ ms, dna.mutation_history = orig.mutation_history ++ ms := by
  intro dna hdna
  simp only [evolve_dna, horig, Except.ok.injEq] at hdna
  subst hdna
  exact ⟨rfl, rfl, evolveGenesAux_forall2 o factors orig.genes st.rng_count,
    ⟨_, rfl⟩⟩

/-- Witness for C10: the evolved sample DNA keeps generation and records
its parent hash. -/
theorem evolve_preserves_lineage_bookkeeping_witness :
    (match (evolve_dna sampleOracle 0 sampleEngine "A" none).1 with
     | .ok d => d.generation = sampleDNA.generation ∧ d.parent_hashes = ["A"]
     | .error _ => False) := by
  have h := evolve_preserves_lineage_bookkeeping sampleOracle 0 sampleEngine "A" none
    sampleDNA rfl
  cases hev : (evolve_dna sampleOracle 0 sampleEngine "A" none).1 with
  | ok d => exact ⟨(h d hev).1, (h d hev).2.1⟩
  | error e =>
    have hok2 : isOkE (evolve_dna sampleOracle 0 sampleEngine "A" none).1 = true := rfl
    rw [hev] at hok2
    simp [isOkE] at hok2

/-! ## Request-boundary error mapping (`app/api.py`)

Each handler is modelled as a function from its request data and the
relevant service state to the HTTP status and `detail` string FastAPI
would send, following the try/except chain of the handler.  An exception that
escapes a handler with no try/except is turned by the framework into a
generic 500 (`frameworkStatusOf`). -/

/-- The status and error detail of a handler response. -/
structure ApiResult where
  status : Nat
  detail : Option String
  deriving DecidableEq, Repr

/-- Modelled from the framework: an exception escaping a handler becomes
a generic 500 Internal Server Error (its detail does not carry the
exception message). -/
def frameworkStatusOf : Except PyErr A → Nat
  | .ok _ => 200
  | .error _ => 500

/-- A decimal digit. -/
def isDigitChar (c : Char) : Bool := Char.ofNat 48 ≤ c && c ≤ Char.ofNat 57

/-- Digits to a natural number. -/
def digitsToNat (l : List Char) : Nat := l.foldl (fun a c => a * 10 + (c.toNat - 48)) 0

/-- Optional leading sign: negative flag and the rest. -/
def splitSign (l : List Char) : Bool × List Char :=
  match l with
  | c :: t =>
    if c = Char.ofNat 45 then (true, t)
    else if c = Char.ofNat 43 then (false, l.tail)
    else (false, l)
  | [] => (false, [])

/-- Exponent part after `e`/`E`: optional sign then nonempty digits. -/
def parseExpPart (l : List Char) : Option Int :=
  let s := splitSign l
  if s.2.isEmpty || !(s.2.all isDigitChar) then none
  else some (if s.1 then -(digitsToNat s.2 : Int) else (digitsToNat s.2 : Int))

/-- The float literal grammar `float(str)` accepts:
`[sign] (digits [. digits] | . digits) [e [sign] digits]`.
(The special forms `inf`/`nan` and digit underscores are not modelled;
they never occur in the claims below.) -/
def pyFloatParse (l : List Char) : Option ℚ :=
  let s := splitSign l
  let intPart := s.2.takeWhile isDigitChar
  let r1 := s.2.dropWhile isDigitChar
  let fr : List Char × List Char :=
    match r1 with
    | c :: t =>
      if c = Char.ofNat 46 then (t.takeWhile isDigitChar, t.dropWhile isDigitChar)
      else ([], r1)
    | [] => ([], [])
  if intPart.isEmpty && fr.1.isEmpty then none
  else
    let mant : ℚ := (digitsToNat intPart : ℚ) + (digitsToNat fr.1 : ℚ) / ((10 : ℚ) ^ fr.1.length)
    let signed := if s.1 then -mant else mant
    match fr.2 with
    | [] => some signed
    | c :: t =>
      if c = Char.ofNat 101 ∨ c = Char.ofNat 69 then
        match parseExpPart t with
        | some e => some (signed * (10 : ℚ) ^ e)
        | none => none
      else none

/-- Python `float(s)`: strips whitespace, parses the literal, raises a
`ValueError` otherwise. -/
def pyFloat (s : String) : Except PyErr ℚ :=
  let t := ((s.data.dropWhile Char.isWhitespace).reverse.dropWhile Char.isWhitespace).reverse
  match pyFloatParse t with
  | some q => .ok q
  | none => .error (.valueError ("could not convert string to float: " ++ s))

/-- `ListingType` enum (api.py lines 452-454). -/
inductive ListingType where
  | FIXED
  | AUCTION
  deriving DecidableEq, Repr

/-- `MarketplaceListing` (api.py lines 457-472). -/
structure MarketplaceListing where
  token_id : Int
  name : String
  description : String
  image_url : String
  content_type : String
  price : String
  seller : String
  listing_type : ListingType
  auction_end_time : Option Int
  highest_bid : Option String
  total_royalty : Int
  creator : String
  created_at : Int
  deriving DecidableEq, Repr

/-- `MarketplaceListResponse` (api.py lines 475-481). -/
structure MarketplaceListResponse where
  items : List MarketplaceListing
  total : Nat
  page : Nat
  totalPages : Nat
  deriving DecidableEq, Repr

/-- Effectful filter in the `Except` monad (a Python list comprehension
whose predicate can raise). -/
def filterME (f : A → Except E Bool) : List A → Except E (List A)
  | [] => .ok []
  | a :: t => do
    let b ← f a
    let bs ← filterME f t
    .ok (if b then a :: bs else bs)

/-- `filtered.sort(key=lambda x: float(x.price))`, optionally
descending: the key is computed for every element (and can raise), then
a stable sort is applied. -/
def sortByPriceKey (filtered : List MarketplaceListing) (desc : Bool) :
    Except PyErr (List MarketplaceListing) := do
  let keyed ← mapME (fun it => do
    let p ← pyFloat it.price
    .ok (p, it)) filtered
  let sorted := keyed.mergeSort (fun a b =>
    if desc then decide (b.1 ≤ a.1) else decide (a.1 ≤ b.1))
  .ok (sorted.map (fun p => p.2))

/-- `list_marketplace_items` (api.py lines 488-549).  The handler has no
try/except: a raised exception escapes to the framework.  `sort`
defaults to `"recent"`. -/
def list_marketplace_items (listings : List MarketplaceListing) (page limit : Nat)
    (content_type : Option ContentType) (listing_type : Option ListingType)
    (min_price max_price : Option String) (sort : String)
    (search : Option String) : Except PyErr MarketplaceListResponse := do
  let filtered := listings
  let filtered :=
    match content_type with
    | none => filtered
    | some ct => filtered.filter (fun l => l.content_type == contentTypeValue ct)
  let filtered :=
    match listing_type with
    | none => filtered
    | some lt => filtered.filter (fun l => decide (l.listing_type = lt))
  let filtered ←
    match min_price with
    | none => .ok filtered
    | some mp =>
      if mp = "" then .ok filtered
      else do
        let min_val ← pyFloat mp
        filterME (fun item => do
          let p ← pyFloat item.price
          .ok (decide (min_val ≤ p))) filtered
  let filtered ←
    match max_price with
    | none => .ok filtered
    | some mp =>
      if mp = "" then .ok filtered
      else do
        let max_val ← pyFloat mp
        filterME (fun item => do
          let p ← pyFloat item.price
          .ok (decide (p ≤ max_val))) filtered
  let filtered :=
    match search with
    | none => filtered
    | some q =>
      if q = "" then filtered
      else
        let ql := pyLower q
        filtered.filter (fun l =>
          pyInStr ql (pyLower l.name) || pyInStr ql (pyLower l.description) ||
          pyInStr ql (pyLower l.creator) || pyInStr ql (pyLower l.seller))
  let filtered ←
    if sort = "price_low" then sortByPriceKey filtered false
    else if sort = "price_high" then sortByPriceKey filtered true
    else if sort = "recent" then
      .ok (((filtered.map (fun l => (l.created_at, l))).mergeSort
        (fun a b => decide (b.1 ≤ a.1))).map (fun p => p.2))
    else .ok filtered
  let total := filtered.length
  let total_pages := max 1 ((total + limit - 1) / limit)
  let start := (page - 1) * limit
  let paginated := pySlice filtered start (start + limit)
  .ok { items := paginated, total := total, page := page, totalPages := total_pages }

/-- C8 counterexample: the marketplace-listings handler maps a
validation `ValueError` (an unparsable `min_price`) to a generic 500 --
it has no try/except -- so the three-way mapping does not hold for every
HTTP request handler. -/
theorem api_error_mapping_cex :
    list_marketplace_items [] 1 20 none none (some "abc") none "recent" none =
      .error (.valueError "could not convert string to float: abc") ∧
    frameworkStatusOf
      (list_marketplace_items [] 1 20 none none (some "abc") none "recent" none) = 500 := by
  constructor <;> rfl

/-- `GenerationRequest.__post_init__` (generation.py lines 59-66). -/
def generationRequestInit (prompt creator_address : String) (timeout : Int) :
    Except PyErr Unit :=
  if pyBlank prompt then .error (.valueError "Prompt cannot be empty")
  else if creator_address = "" ∨ ¬ pyStartsWith creator_address "0x" then
    .error (.valueError "Invalid creator address")
  else if timeout ≤ 0 ∨ 300 < timeout then
    .error (.valueError "Timeout must be between 1 and 300 seconds")
  else .ok ()

/-- `generate_content` (api.py lines 210-248): `ValueError` to 400,
other exceptions to 500 with the message.  `service.generate` catches
every internal exception itself (generation.py lines 199-236), so the
only exception reaching this handler is the request-validation
`ValueError`. -/
def generate_content_endpoint (prompt creator_address : String) : ApiResult :=
  match generationRequestInit prompt creator_address 60 with
  | .error (.valueError m) => { status := 400, detail := some m }
  | .error e => { status := 500, detail := some ("Generation failed: " ++ e.msg) }
  | .ok _ => { status := 200, detail := none }

/-- `get_content` endpoint (api.py lines 333-349): `ValueError` (the
storage miss) to 404, other exceptions to 500 with the message. -/
def get_content_endpoint (st : IPFSService) (cid : String) : ApiResult :=
  match get_content st cid with
  | .ok _ => { status := 200, detail := none }
  | .error (.valueError m) => { status := 404, detail := some m }
  | .error e => { status := 500, detail := some ("Retrieval failed: " ++ e.msg) }

/-- `generate_dna` endpoint (api.py lines 701-721): every exception to
500 with the message. -/
def generate_dna_endpoint (o : DNAOracle) (now : Int) (st : ContentDNAEngine)
    (prompt : String) (style : Option (List (String × Json))) : ApiResult :=
  match generate_dna_from_prompt o now st prompt style with
  | .ok _ => { status := 200, detail := none }
  | .error e => { status := 500, detail := some ("DNA generation failed: " ++ e.msg) }

/-- `breed_dna` endpoint (api.py lines 724-748): `ValueError` (missing
parent) to 404, other exceptions to 500 with the message. -/
def breed_dna_endpoint (o : DNAOracle) (now : Int) (st : ContentDNAEngine)
    (p1 p2 : String) (mb : ℚ) : ApiResult :=
  match (breed_dna o now st p1 p2 mb).1 with
  | .ok _ => { status := 200, detail := none }
  | .error (.valueError m) => { status := 404, detail := some m }
  | .error e => { status := 500, detail := some ("DNA breeding failed: " ++ e.msg) }

/-- `evolve_dna` endpoint (api.py lines 751-775): `ValueError` (missing
hash) to 404, other exceptions to 500 with the message. -/
def evolve_dna_endpoint (o : DNAOracle) (now : Int) (st : ContentDNAEngine)
    (hash : String) (factors : Option (List (String × ℚ))) : ApiResult :=
  match (evolve_dna o now st hash factors).1 with
  | .ok _ => { status := 200, detail := none }
  | .error (.valueError m) => { status := 404, detail := some m }
  | .error e => { status := 500, detail := some ("DNA evolution failed: " ++ e.msg) }

/-- C8 (amended).  The three-way request-boundary mapping -- validation
`ValueError` to a 4xx client error, lookup miss to 404, any other
exception to a 500 whose detail carries the exception message -- holds
for the generation, content-retrieval and DNA endpoints (though not for
every handler, see the counterexample). -/
theorem api_three_way_error_mapping (prompt creator cid p1 p2 hash : String)
    (ist : IPFSService) (o : DNAOracle) (now : Int) (st : ContentDNAEngine)
    (mb : ℚ) (style : Option (List (String × Json)))
    (factors : Option (List (String × ℚ))) :
    (∀ m, generationRequestInit prompt creator 60 = .error (.valueError m) →
      generate_content_endpoint prompt creator = { status := 400, detail := some m }) ∧
    (generationRequestInit prompt creator 60 = .ok () →
      generate_content_endpoint prompt creator = { status := 200, detail := none }) ∧
    (pyDictGet ist.storage cid = none →
      get_content_endpoint ist cid =
        { status := 404, detail := some ("Content not found for CID: " ++ cid) }) ∧
    (∀ b, pyDictGet ist.storage cid = some b →
      get_content_endpoint ist cid = { status := 200, detail := none }) ∧
    (∀ e, generate_dna_from_prompt o now st prompt style = .error e →
      generate_dna_endpoint o now st prompt style =
        { status := 500, detail := some ("DNA generation failed: " ++ PyErr.msg e) }) ∧
    (∀ r, generate_dna_from_prompt o now st prompt style = .ok r →
      generate_dna_endpoint o now st prompt style = { status := 200, detail := none }) ∧
    ((pyDictGet st.dna_registry p1 = none ∨ pyDictGet st.dna_registry p2 = none) →
      (breed_dna_endpoint o now st p1 p2 mb).status = 404) ∧
    (isOkE (breed_dna o now st p1 p2 mb).1 = true →
      breed_dna_endpoint o now st p1 p2 mb = { status := 200, detail := none }) ∧
    (pyDictGet st.dna_registry hash = none →
      (evolve_dna_endpoint o now st hash factors).status = 404) ∧
    (isOkE (evolve_dna o now st hash factors).1 = true →
      evolve_dna_endpoint o now st hash factors = { status := 200, detail := none }) := by
  refine ⟨?_, ?_, ?_, ?_, ?_, ?_, ?_, ?_, ?_, ?_⟩
  · intro m hm
    unfold generate_content_endpoint
    rw [hm]
  · intro hok
    unfold generate_content_endpoint
    rw [hok]
  · intro hmiss
    unfold get_content_endpoint get_content
    rw [hmiss]
  · intro b hb
    unfold get_content_endpoint get_content
    rw [hb]
  · intro e he
    unfold generate_dna_endpoint
    rw [he]
  · intro r hr
    unfold generate_dna_endpoint
    rw [hr]
  · intro hmiss
    rcases hmiss with hm | hm
    · unfold breed_dna_endpoint breed_dna
      rw [hm]
    · cases hq1 : pyDictGet st.dna_registry p1 with
      | none =>
        unfold breed_dna_endpoint breed_dna
        rw [hq1]
      | some d1 =>
        unfold breed_dna_endpoint breed_dna
        rw [hq1, hm]
  · intro hok
    cases hb : (breed_dna o now st p1 p2 mb).1 with
    | ok d =>
      unfold breed_dna_endpoint
      rw [hb]
    | error e => rw [hb] at hok; simp [isOkE] at hok
  · intro hmiss
    unfold evolve_dna_endpoint evolve_dna
    rw [hmiss]
  · intro hok
    cases hb : (evolve_dna o now st hash factors).1 with
    | ok d =>
      unfold evolve_dna_endpoint
      rw [hb]
    | error e => rw [hb] at hok; simp [isOkE] at hok

/-- Witness for the amended C8: a blank prompt yields 400 and a missing
CID yields 404. -/
theorem api_three_way_error_mapping_witness :
    generate_content_endpoint " " "0xab" =
      { status := 400, detail := some "Prompt cannot be empty" } ∧
    get_content_endpoint { storage := [], pins := [], meta := [] } "QmX" =
      { status := 404, detail := some "Content not found for CID: QmX" } := by
  have h := api_three_way_error_mapping " " "0xab" "QmX" "A" "B" "C"
    { storage := [], pins := [], meta := [] } sampleOracle 0 sampleEngine 0 none none
  exact ⟨h.1 "Prompt cannot be empty" rfl, h.2.2.1 rfl⟩

end DGC
